import Mathlib

/-!
# Flappy Rectangle: a shallow embedding of `src/main.c`

The per-frame simulation of the game (bird physics, pipe recycling, collision
evaluation, session state) is embedded as pure functions on an explicit game state.

Modelling conventions.

* `float` values are exact rationals (`ℚ`); rounding is not modelled.
* `int` values are integers (`ℤ`); the frame counts needed to overflow `score`
  are outside the model (signed overflow has no defined behaviour in C).
* The file-scope variables of `main.c` together with the `pipeArray` of `main`
  form the record `Game`.
* What the host libraries supply per frame is an explicit `Input`: the value of
  `IsKeyPressed(KEY_SPACE)`, the value of `GetFrameTime()`, and the values
  `GetRandomValue` returns for a pipe created in that frame.
* `cosf`, `sinf` and `DEG2RAD`, used by raymath's `Vector2Rotate`, are fields of
  a parameter `Libm`.
* `pipeArray[nearestPipeIndex]` with an index outside `0 .. PIPE_COUNT_IN_SCREEN - 1`
  has no defined behaviour: `CheckCollision` then returns `none`.
-/

namespace FlappyRectangle

/-! ## Macro definitions and file-scope constants -/

def BIRD_WIDTH : ℤ := 70
def BIRD_HEIGHT : ℤ := 50
def BIRD_JUMP_SPEED : ℤ := 500
def GRAVITY : ℤ := 1700
def BIRD_JUMP_ROTATION : ℤ := 15
/-- Number of pipes; also the length of `pipeArray`. -/
abbrev PIPE_COUNT_IN_SCREEN : ℕ := 2
def PIPE_SPEED_BASE : ℤ := 200
def PIPE_SPEED_MAX : ℤ := 450
def PIPE_WIDTH : ℤ := 100
def PIPE_GAP_MIN : ℤ := BIRD_HEIGHT * 3
def PIPE_GAP_MAX : ℤ := BIRD_HEIGHT * 5

def screenWidth : ℤ := 800
def screenHeight : ℤ := 800

/-- Value of `pipeOffset`; `/` of C on `int` truncates. -/
def pipeOffset : ℤ :=
  Int.tdiv (screenWidth - ((PIPE_COUNT_IN_SCREEN : ℤ) - 1) * PIPE_WIDTH) (PIPE_COUNT_IN_SCREEN : ℤ)

/-- Value returned by `GetScreenHeight()`: the height passed to `InitWindow`. -/
def GetScreenHeight : ℤ := screenHeight

/-! ## Library types and functions (raylib, raymath) -/

/-- Type `Vector2` of raylib, over a field of scalars. -/
structure Vector2 (K : Type) where
  x : K
  y : K

/-- Type `Rectangle` of raylib (top-left corner, width, height). -/
structure Rectangle where
  x : ℚ
  y : ℚ
  width : ℚ
  height : ℚ

/-- Colours the program names. -/
inductive Color where
  | WHITE
  | GREEN
  | BLACK
  deriving DecidableEq

/-- Function `Vector2Subtract` of raymath. -/
def Vector2Subtract {K : Type} [Field K] (v1 v2 : Vector2 K) : Vector2 K :=
  ⟨v1.x - v2.x, v1.y - v2.y⟩

/-- Function `Vector2Add` of raymath. -/
def Vector2Add {K : Type} [Field K] (v1 v2 : Vector2 K) : Vector2 K :=
  ⟨v1.x + v2.x, v1.y + v2.y⟩

/-- Function `Vector2Rotate` of raymath, with the `cosf` and `sinf` it calls as arguments. -/
def Vector2Rotate {K : Type} [Field K] (cosf sinf : K → K) (v : Vector2 K) (angle : K) :
    Vector2 K :=
  let cosres := cosf angle
  let sinres := sinf angle
  ⟨v.x * cosres - v.y * sinres, v.x * sinres + v.y * cosres⟩

/-- Function `CheckCollisionPointRec` of raylib: the point lies in the rectangle,
left and top edges included, right and bottom edges excluded. -/
def CheckCollisionPointRec (point : Vector2 ℚ) (rec : Rectangle) : Bool :=
  decide (point.x ≥ rec.x) && decide (point.x < rec.x + rec.width)
    && decide (point.y ≥ rec.y) && decide (point.y < rec.y + rec.height)

/-- The math library behind `Vector2Rotate`: `cosf`, `sinf`, and the constant `DEG2RAD`. -/
structure Libm where
  cosf : ℚ → ℚ
  sinf : ℚ → ℚ
  DEG2RAD : ℚ

/-! ## Struct definitions and game state -/

structure Bird where
  rectangle : Rectangle
  velocity : ℚ
  rotation : ℚ
  color : Color

structure Pipe where
  upperPipeRect : Rectangle
  lowerPipeRect : Rectangle
  color : Color
  hasBeenPassed : Bool

/-- The file-scope variables of `main.c` and the `pipeArray` of `main`. -/
structure Game where
  pipeSpeed : ℚ
  bird : Bird
  nearestPipeIndex : ℤ
  score : ℤ
  highScore : ℤ
  isGameRunning : Bool
  pipeArray : Fin PIPE_COUNT_IN_SCREEN → Pipe

/-- What the host supplies in one frame. `random i` is the pair of values
`GetRandomValue` returns (first `upperPipeBottomY`, then `pipeGap`) if `pipeArray[i]`
is created in this frame. -/
structure Input where
  keySpace : Bool
  frameTime : ℚ
  random : Fin PIPE_COUNT_IN_SCREEN → ℤ × ℤ

/-- Which `printf` of `CheckCollision` ran. -/
inductive Message where
  /-- The text "Collision with ceiling". -/
  | ceiling
  /-- The text "Collision with floor". -/
  | floor
  /-- The text "Collision with a pipe". -/
  | pipe
  deriving DecidableEq

/-! ## Geometry utility -/

/-- Function `Vector2RotateRel`: rotate by `angle` (radians) relative to `origin`. -/
def Vector2RotateRel {K : Type} [Field K] (cosf sinf : K → K)
    (vectorToRotate origin : Vector2 K) (angle : K) : Vector2 K :=
  let vectorToRotateRelOrigin := Vector2Subtract vectorToRotate origin
  let rotatedVectorRelOrigin := Vector2Rotate cosf sinf vectorToRotateRelOrigin angle
  Vector2Add rotatedVectorRelOrigin origin

/-! ## Bird -/

/-- Function `InitializeBird`; the result is the new value of `bird`. -/
def InitializeBird : Bird :=
  let birdRectangle : Rectangle :=
    { x := 200
      y := ((Int.tdiv GetScreenHeight 2 : ℤ) : ℚ)
      width := (BIRD_WIDTH : ℚ)
      height := (BIRD_HEIGHT : ℚ) }
  { rectangle := birdRectangle, velocity := 0, rotation := 0, color := Color.WHITE }

/-- Function `UpdateBird`, with `IsKeyPressed(KEY_SPACE)` and `GetFrameTime()` as arguments. -/
def UpdateBird (keySpace : Bool) (frameTime : ℚ) (bird : Bird) : Bird :=
  let bird := if keySpace then { bird with velocity := -(BIRD_JUMP_SPEED : ℚ) } else bird
  let bird := { bird with velocity := bird.velocity + (GRAVITY : ℚ) * frameTime }
  let bird :=
    if bird.velocity < 0 then { bird with rotation := -(BIRD_JUMP_ROTATION : ℚ) }
    else if bird.velocity > 0 then { bird with rotation := (BIRD_JUMP_ROTATION : ℚ) }
    else { bird with rotation := 0 }
  { bird with rectangle := { bird.rectangle with y := bird.rectangle.y + bird.velocity * frameTime } }

/-- Function `ResetBird`: as `InitializeBird`, but `color` is not written. -/
def ResetBird (bird : Bird) : Bird :=
  let birdRectangle : Rectangle :=
    { x := 200
      y := ((Int.tdiv GetScreenHeight 2 : ℤ) : ℚ)
      width := (BIRD_WIDTH : ℚ)
      height := (BIRD_HEIGHT : ℚ) }
  { bird with rectangle := birdRectangle, velocity := 0, rotation := 0 }

/-! ## Pipes -/

/-- Function `CreatePipe`. -/
def CreatePipe (upperPipeRect lowerPipeRect : Rectangle) : Pipe :=
  { upperPipeRect := upperPipeRect
    lowerPipeRect := lowerPipeRect
    color := Color.GREEN
    hasBeenPassed := false }

/-- Function `CreateRandomPipe`; `rnd` holds the results of its two `GetRandomValue` calls,
`GetRandomValue(20, screenHeight - PIPE_GAP_MAX)` and `GetRandomValue(PIPE_GAP_MIN, PIPE_GAP_MAX)`. -/
def CreateRandomPipe (rnd : ℤ × ℤ) (x : ℤ) : Pipe :=
  let upperPipeBottomY : ℤ := rnd.1
  let pipeGap : ℤ := rnd.2
  let lowerPipeUpperY : ℤ := upperPipeBottomY + pipeGap
  let upperPipeRect : Rectangle :=
    { x := (x : ℚ), y := 0, width := (PIPE_WIDTH : ℚ), height := (upperPipeBottomY : ℚ) }
  let lowerPipeRect : Rectangle :=
    { x := (x : ℚ)
      y := (lowerPipeUpperY : ℚ)
      width := (PIPE_WIDTH : ℚ)
      height := ((screenHeight - lowerPipeUpperY : ℤ) : ℚ) }
  CreatePipe upperPipeRect lowerPipeRect

/-- The range `GetRandomValue` promises for the two draws of `CreateRandomPipe`. -/
def ValidDraw (rnd : ℤ × ℤ) : Prop :=
  (20 ≤ rnd.1 ∧ rnd.1 ≤ screenHeight - PIPE_GAP_MAX) ∧ (PIPE_GAP_MIN ≤ rnd.2 ∧ rnd.2 ≤ PIPE_GAP_MAX)

instance (rnd : ℤ × ℤ) : Decidable (ValidDraw rnd) := by
  unfold ValidDraw; infer_instance

/-- Function `InitializePipes`: the loop writes `pipeArray[i]` for `i = 0 .. PIPE_COUNT_IN_SCREEN - 1`. -/
def InitializePipes (random : Fin PIPE_COUNT_IN_SCREEN → ℤ × ℤ)
    (pipeArray : Fin PIPE_COUNT_IN_SCREEN → Pipe) : Fin PIPE_COUNT_IN_SCREEN → Pipe :=
  (List.finRange PIPE_COUNT_IN_SCREEN).foldl
    (fun pipeArray i =>
      Function.update pipeArray i
        (CreateRandomPipe (random i) (screenWidth + (i : ℤ) * (pipeOffset + PIPE_WIDTH))))
    pipeArray

/-- Function `ResetPipes`. -/
def ResetPipes (random : Fin PIPE_COUNT_IN_SCREEN → ℤ × ℤ)
    (pipeArray : Fin PIPE_COUNT_IN_SCREEN → Pipe) : Fin PIPE_COUNT_IN_SCREEN → Pipe :=
  InitializePipes random pipeArray

/-- Function `MovePipe`, with `pipeSpeed` and `GetFrameTime()` as arguments. -/
def MovePipe (pipeSpeed frameTime : ℚ) (pipe : Pipe) : Pipe :=
  let pipe := { pipe with lowerPipeRect := { pipe.lowerPipeRect with x := pipe.lowerPipeRect.x - pipeSpeed * frameTime } }
  { pipe with upperPipeRect := { pipe.upperPipeRect with x := pipe.upperPipeRect.x - pipeSpeed * frameTime } }

/-- Body of the loop of `UpdatePipes` for index `i`. -/
def UpdatePipesBody (frameTime : ℚ) (random : Fin PIPE_COUNT_IN_SCREEN → ℤ × ℤ)
    (g : Game) (i : Fin PIPE_COUNT_IN_SCREEN) : Game :=
  let g :=
    if (!(g.pipeArray i).hasBeenPassed
        && decide (g.bird.rectangle.x ≥ (g.pipeArray i).upperPipeRect.x + 5)) = true then
      { g with
        score := g.score + 1
        pipeArray := Function.update g.pipeArray i { g.pipeArray i with hasBeenPassed := true } }
    else g
  let g :=
    if (g.pipeArray i).upperPipeRect.x + (PIPE_WIDTH : ℚ) < g.bird.rectangle.x then
      if (i : ℤ) = (PIPE_COUNT_IN_SCREEN : ℤ) - 1 then { g with nearestPipeIndex := 0 }
      else { g with nearestPipeIndex := (i : ℤ) + 1 }
    else g
  let g :=
    if (g.pipeArray i).upperPipeRect.x ≤ -(PIPE_WIDTH : ℚ) then
      { g with pipeArray := Function.update g.pipeArray i (CreateRandomPipe (random i) screenWidth) }
    else g
  { g with pipeArray := Function.update g.pipeArray i (MovePipe g.pipeSpeed frameTime (g.pipeArray i)) }

/-- Function `UpdatePipes`. -/
def UpdatePipes (frameTime : ℚ) (random : Fin PIPE_COUNT_IN_SCREEN → ℤ × ℤ) (g : Game) : Game :=
  (List.finRange PIPE_COUNT_IN_SCREEN).foldl (UpdatePipesBody frameTime random) g

/-! ## Collision -/

/-- The array read `pipeArray[index]` with an `int` index. -/
def pipeAt (pipeArray : Fin PIPE_COUNT_IN_SCREEN → Pipe) (index : ℤ) : Option Pipe :=
  if h : 0 ≤ index ∧ index < (PIPE_COUNT_IN_SCREEN : ℤ) then
    some (pipeArray ⟨index.toNat, by omega⟩)
  else none

/-- Local `rotatedTopRight` of `CheckCollision`. -/
def rotatedTopRight (m : Libm) (bird : Bird) : Vector2 ℚ :=
  let middle : Vector2 ℚ :=
    ⟨bird.rectangle.x + bird.rectangle.width / 2, bird.rectangle.y + bird.rectangle.height / 2⟩
  let topRight : Vector2 ℚ := ⟨bird.rectangle.x + bird.rectangle.width, bird.rectangle.y⟩
  Vector2RotateRel m.cosf m.sinf topRight middle (bird.rotation * m.DEG2RAD)

/-- Local `rotatedBottomRight` of `CheckCollision`. -/
def rotatedBottomRight (m : Libm) (bird : Bird) : Vector2 ℚ :=
  let middle : Vector2 ℚ :=
    ⟨bird.rectangle.x + bird.rectangle.width / 2, bird.rectangle.y + bird.rectangle.height / 2⟩
  let bottomRight : Vector2 ℚ :=
    ⟨bird.rectangle.x + bird.rectangle.width, bird.rectangle.y + bird.rectangle.height⟩
  Vector2RotateRel m.cosf m.sinf bottomRight middle (bird.rotation * m.DEG2RAD)

/-- The last `if` of `CheckCollision`: the test against `pipeArray[nearestPipeIndex]`. -/
def CheckCollisionPipes (m : Libm) (g : Game) : Option (Game × Option Message) :=
  match pipeAt g.pipeArray g.nearestPipeIndex with
  | none => none
  | some nearest =>
    if (CheckCollisionPointRec (rotatedTopRight m g.bird) nearest.upperPipeRect
        || CheckCollisionPointRec (rotatedBottomRight m g.bird) nearest.lowerPipeRect
        || CheckCollisionPointRec (rotatedTopRight m g.bird) nearest.lowerPipeRect
        || CheckCollisionPointRec (rotatedBottomRight m g.bird) nearest.upperPipeRect) = true then
      some ({ g with
              isGameRunning := false
              highScore := if g.score > g.highScore then g.score else g.highScore },
            some Message.pipe)
    else some (g, none)

/-- Function `CheckCollision`. The result is the new state and the message printed, if any;
`none` when `pipeArray[nearestPipeIndex]` is read outside the array. -/
def CheckCollision (m : Libm) (g : Game) : Option (Game × Option Message) :=
  if g.bird.rotation < 0 then
    if (rotatedTopRight m g.bird).y < 0 then
      some ({ g with
              isGameRunning := false
              highScore := if g.score > g.highScore then g.score else g.highScore },
            some Message.ceiling)
    else CheckCollisionPipes m g
  else if g.bird.rotation > 0 then
    if (rotatedBottomRight m g.bird).y > (screenHeight : ℚ) then
      some ({ g with
              isGameRunning := false
              highScore := if g.score > g.highScore then g.score else g.highScore },
            some Message.floor)
    else CheckCollisionPipes m g
  else CheckCollisionPipes m g

/-! ## Session -/

/-- Function `ResetGame`. -/
def ResetGame (random : Fin PIPE_COUNT_IN_SCREEN → ℤ × ℤ) (g : Game) : Game :=
  let g := { g with bird := ResetBird g.bird }
  let g := { g with pipeArray := ResetPipes random g.pipeArray }
  let g := { g with isGameRunning := true }
  let g := { g with score := 0 }
  { g with pipeSpeed := (PIPE_SPEED_BASE : ℚ) }

/-- The state when the frame loop starts: the initialisers of the file-scope variables,
then `InitGame`, which calls `InitializeBird` and `InitializePipes`. `pipeArray` is the
(uninitialised) array of `main`. -/
def InitGame (random : Fin PIPE_COUNT_IN_SCREEN → ℤ × ℤ)
    (pipeArray : Fin PIPE_COUNT_IN_SCREEN → Pipe) : Game :=
  { pipeSpeed := (PIPE_SPEED_BASE : ℚ)
    bird := InitializeBird
    nearestPipeIndex := 0
    score := 0
    highScore := 0
    isGameRunning := true
    pipeArray := InitializePipes random pipeArray }

/-- The speed ramp at the end of a running frame: `if (pipeSpeed <= PIPE_SPEED_MAX) pipeSpeed += 0.03;`. -/
def rampSpeed (g : Game) : Game :=
  if g.pipeSpeed ≤ (PIPE_SPEED_MAX : ℚ) then { g with pipeSpeed := g.pipeSpeed + 3 / 100 } else g

/-- Function `UpdateGame`: one frame. `none` when `CheckCollision` reads outside `pipeArray`. -/
def UpdateGame (m : Libm) (inp : Input) (g : Game) : Option Game :=
  if g.isGameRunning = true then
    let g := { g with bird := UpdateBird inp.keySpace inp.frameTime g.bird }
    let g := UpdatePipes inp.frameTime inp.random g
    match CheckCollision m g with
    | none => none
    | some (g, _) => some (rampSpeed g)
  else
    if inp.keySpace = true then some (ResetGame inp.random g)
    else some g

/-- Inputs the host can supply: a non-negative frame time and draws within their ranges. -/
def ValidInput (inp : Input) : Prop :=
  0 ≤ inp.frameTime ∧ ∀ i, ValidDraw (inp.random i)

/-- States the frame loop can be in: the state after `InitGame`, and every state a frame
produces from a reachable state. -/
inductive Reachable (m : Libm) : Game → Prop where
  | init (random : Fin PIPE_COUNT_IN_SCREEN → ℤ × ℤ) (pipeArray : Fin PIPE_COUNT_IN_SCREEN → Pipe)
      (hr : ∀ i, ValidDraw (random i)) : Reachable m (InitGame random pipeArray)
  | frame (inp : Input) (g g' : Game) (hg : Reachable m g) (hi : ValidInput inp)
      (hstep : UpdateGame m inp g = some g') : Reachable m g'

/-! ## Auxiliary definitions for the statements -/

/-- What one iteration of the loop of `UpdatePipes` leaves in a slot that held `p`:
the pipe is recreated if it is out of the screen, else flagged if the bird reached it,
and then moved. -/
def pipeAfter (frameTime : ℚ) (rnd : ℤ × ℤ) (pipeSpeed birdX : ℚ) (p : Pipe) : Pipe :=
  MovePipe pipeSpeed frameTime
    (if p.upperPipeRect.x ≤ -(PIPE_WIDTH : ℚ) then CreateRandomPipe rnd screenWidth
     else if (!p.hasBeenPassed && decide (birdX ≥ p.upperPipeRect.x + 5)) = true then
       { p with hasBeenPassed := true }
     else p)

/-- The state a collision branch of `CheckCollision` leaves: `isGameRunning = false` and
`highScore = (score > highScore) ? score : highScore`. -/
def gameOver (g : Game) : Game :=
  { g with
    isGameRunning := false
    highScore := if g.score > g.highScore then g.score else g.highScore }

/-- The state `CheckCollision` receives in a running frame: `UpdateBird`, then `UpdatePipes`. -/
def beforeCollisionCheck (inp : Input) (g : Game) : Game :=
  UpdatePipes inp.frameTime inp.random
    { g with bird := UpdateBird inp.keySpace inp.frameTime g.bird }

/-- The frame loop of `main` over the inputs of consecutive frames (the update part of
`UpdateDrawFrame`). -/
def UpdateGameN (m : Libm) : List Input → Game → Option Game
  | [], g => some g
  | inp :: rest, g => (UpdateGame m inp g).bind (UpdateGameN m rest)

/-- A stand-in for the C math library when a frame is evaluated on concrete numbers:
Taylor polynomials of degree 6 and 7 for `cosf` and `sinf`, and `DEG2RAD = PI / 180` with
the `PI` of raylib. They are exact at angle 0. -/
def taylorLibm : Libm :=
  { cosf := fun a => 1 - a ^ 2 / 2 + a ^ 4 / 24 - a ^ 6 / 720
    sinf := fun a => a - a ^ 3 / 6 + a ^ 5 / 120 - a ^ 7 / 5040
    DEG2RAD := 314159265358979323846 / 100000000000000000000 / 180 }

/-- A running state in which `pipeArray[0]` has just reached `x = -PIPE_WIDTH`. -/
def recycleFrameState : Game :=
  { pipeSpeed := 200
    bird := InitializeBird
    nearestPipeIndex := 1
    score := 1
    highScore := 0
    isGameRunning := true
    pipeArray := fun i =>
      if i = 0 then { CreateRandomPipe (300, 200) (-100) with hasBeenPassed := true }
      else CreateRandomPipe (300, 200) 350 }

/-- A pipe of the shape `CreateRandomPipe rnd` builds, at horizontal position `x`. -/
def pipeShape (rnd : ℤ × ℤ) (x : ℚ) (hasBeenPassed : Bool) : Pipe :=
  { upperPipeRect := { x := x, y := 0, width := (PIPE_WIDTH : ℚ), height := (rnd.1 : ℚ) }
    lowerPipeRect :=
      { x := x
        y := ((rnd.1 + rnd.2 : ℤ) : ℚ)
        width := (PIPE_WIDTH : ℚ)
        height := ((screenHeight - (rnd.1 + rnd.2) : ℤ) : ℚ) }
    color := Color.GREEN
    hasBeenPassed := hasBeenPassed }

/-- A state whose bird is the freshly initialised one, with `pipeArray[0]` of shape `(300, 250)`
and `pipeArray[1]` of shape `(20, 150)`. -/
def restingState (pipeSpeed x0 x1 : ℚ) (passed0 passed1 : Bool) (nearest score highScore : ℤ)
    (running : Bool) : Game :=
  { pipeSpeed := pipeSpeed
    bird := InitializeBird
    nearestPipeIndex := nearest
    score := score
    highScore := highScore
    isGameRunning := running
    pipeArray := fun i =>
      if i = 0 then pipeShape (300, 250) x0 passed0 else pipeShape (20, 150) x1 passed1 }

/-- The draws of the first `InitializePipes`. -/
def startDraws : Fin PIPE_COUNT_IN_SCREEN → ℤ × ℤ :=
  fun i => if i = 0 then (300, 250) else (20, 150)

/-- A frame in which SPACE is pressed and 5/17 s have elapsed; a pipe created in it draws `(300, 250)`
for slot 0 and `(20, 150)` for slot 1. -/
def pressFrame : Input := { keySpace := true, frameTime := 5 / 17, random := startDraws }

/-- A frame without key press in which no time has elapsed. -/
def idleFrame : Input := { keySpace := false, frameTime := 0, random := startDraws }

/-- The array of `main` before `InitGame` has written it (its content is not used). -/
def startArray : Fin PIPE_COUNT_IN_SCREEN → Pipe :=
  fun _ => CreatePipe ⟨0, 0, 0, 0⟩ ⟨0, 0, 0, 0⟩

/-- The reading of "nearest" in the spec, for the frame whose `UpdatePipes` starts in state `g`
(positions before the shift) and leaves the index `nearest`: `pipeArray[nearest]` is one of the
pipes whose trailing edge `x + PIPE_WIDTH` is not strictly left of the bird's `x`, and its `x`
is the smallest among those pipes. -/
def NearestIsFirstUnpassed (g : Game) (nearest : ℤ) : Prop :=
  ∃ n : Fin PIPE_COUNT_IN_SCREEN, (n : ℤ) = nearest
    ∧ ¬ (g.pipeArray n).upperPipeRect.x + (PIPE_WIDTH : ℚ) < g.bird.rectangle.x
    ∧ ∀ j : Fin PIPE_COUNT_IN_SCREEN,
        ¬ (g.pipeArray j).upperPipeRect.x + (PIPE_WIDTH : ℚ) < g.bird.rectangle.x →
          (g.pipeArray n).upperPipeRect.x ≤ (g.pipeArray j).upperPipeRect.x

/-! ## Pause screen -/

/-- Function `DrawPauseScreen`, reduced to its static counter and the restart prompt. The
argument is the value of `frameCounterReplayText` before the call; the result is its value
after the call and whether the prompt "Press Space to Play Again" is drawn in the call. The two
score texts are drawn in every call. -/
def DrawPauseScreen (frameCounterReplayText : ℤ) : ℤ × Bool :=
  let frameCounterReplayText := frameCounterReplayText + 1
  if frameCounterReplayText ≤ 45 then (frameCounterReplayText, true)
  else if frameCounterReplayText > 90 then (0, false)
  else (frameCounterReplayText, false)

/-- Value of `frameCounterReplayText` after `n` consecutive calls of `DrawPauseScreen`, the
counter starting at its initialiser 0. -/
def pauseCounter : ℕ → ℤ
  | 0 => 0
  | n + 1 => (DrawPauseScreen (pauseCounter n)).1

/-- Whether the restart prompt is drawn in call `n` of a run of consecutive calls of
`DrawPauseScreen` (calls numbered from 0, counter starting at 0). -/
def promptDrawn (n : ℕ) : Bool :=
  (DrawPauseScreen (pauseCounter n)).2

/-! ## Further definitions for the statements -/

/-- The shape every pipe of `CreateRandomPipe` has: both rectangles at the same `x`, of width
`PIPE_WIDTH`, the upper one from `y = 0`, the lower one down to `screenHeight`, and a gap
between `PIPE_GAP_MIN` and `PIPE_GAP_MAX`. -/
def PipeShapeOK (p : Pipe) : Prop :=
  p.upperPipeRect.x = p.lowerPipeRect.x
  ∧ p.upperPipeRect.width = (PIPE_WIDTH : ℚ)
  ∧ p.lowerPipeRect.width = (PIPE_WIDTH : ℚ)
  ∧ p.upperPipeRect.y = 0
  ∧ p.lowerPipeRect.y + p.lowerPipeRect.height = (screenHeight : ℚ)
  ∧ (PIPE_GAP_MIN : ℚ) ≤ p.lowerPipeRect.y - p.upperPipeRect.height
  ∧ p.lowerPipeRect.y - p.upperPipeRect.height ≤ (PIPE_GAP_MAX : ℚ)

/-- What is used of the math library where the tilted corners are bounded; all of it holds
of the real cosine and sine. The angle of an untilted bird is `0 * DEG2RAD`, the tilt angle is
`BIRD_JUMP_ROTATION * DEG2RAD` (15 degrees, `sin = 0.2588..`, `cos = 0.9659..`). -/
def TiltSound (m : Libm) : Prop :=
  m.cosf (0 * m.DEG2RAD) = 1
  ∧ m.sinf (0 * m.DEG2RAD) = 0
  ∧ m.cosf (-(BIRD_JUMP_ROTATION : ℚ) * m.DEG2RAD) = m.cosf ((BIRD_JUMP_ROTATION : ℚ) * m.DEG2RAD)
  ∧ m.sinf (-(BIRD_JUMP_ROTATION : ℚ) * m.DEG2RAD) = -m.sinf ((BIRD_JUMP_ROTATION : ℚ) * m.DEG2RAD)
  ∧ 1 / 4 ≤ m.sinf ((BIRD_JUMP_ROTATION : ℚ) * m.DEG2RAD)
  ∧ m.sinf ((BIRD_JUMP_ROTATION : ℚ) * m.DEG2RAD) ≤ 27 / 100
  ∧ 24 / 25 ≤ m.cosf ((BIRD_JUMP_ROTATION : ℚ) * m.DEG2RAD)
  ∧ m.cosf ((BIRD_JUMP_ROTATION : ℚ) * m.DEG2RAD) ≤ 1

/-! ## Lemmas on the loop of `UpdatePipes` -/

theorem finRange_pipes : List.finRange PIPE_COUNT_IN_SCREEN = [0, 1] := by
  decide

theorem UpdatePipes_eq (dt : ℚ) (r : Fin PIPE_COUNT_IN_SCREEN → ℤ × ℤ) (g : Game) :
    UpdatePipes dt r g = UpdatePipesBody dt r (UpdatePipesBody dt r g 0) 1 := by
  unfold UpdatePipes
  rw [finRange_pipes]
  rfl

theorem body_pipeSpeed (dt : ℚ) (r : Fin PIPE_COUNT_IN_SCREEN → ℤ × ℤ) (g : Game)
    (i : Fin PIPE_COUNT_IN_SCREEN) : (UpdatePipesBody dt r g i).pipeSpeed = g.pipeSpeed := by
  unfold UpdatePipesBody
  dsimp only
  split_ifs <;> rfl

theorem body_bird (dt : ℚ) (r : Fin PIPE_COUNT_IN_SCREEN → ℤ × ℤ) (g : Game)
    (i : Fin PIPE_COUNT_IN_SCREEN) : (UpdatePipesBody dt r g i).bird = g.bird := by
  unfold UpdatePipesBody
  dsimp only
  split_ifs <;> rfl

theorem body_pipe_ne (dt : ℚ) (r : Fin PIPE_COUNT_IN_SCREEN → ℤ × ℤ) (g : Game)
    (i j : Fin PIPE_COUNT_IN_SCREEN) (h : j ≠ i) :
    (UpdatePipesBody dt r g i).pipeArray j = g.pipeArray j := by
  unfold UpdatePipesBody
  dsimp only
  split_ifs <;> simp [Function.update_noteq h]

theorem body_pipe_self (dt : ℚ) (r : Fin PIPE_COUNT_IN_SCREEN → ℤ × ℤ) (g : Game)
    (i : Fin PIPE_COUNT_IN_SCREEN) :
    (UpdatePipesBody dt r g i).pipeArray i
      = pipeAfter dt (r i) g.pipeSpeed g.bird.rectangle.x (g.pipeArray i) := by
  unfold UpdatePipesBody pipeAfter
  dsimp only
  split_ifs <;> simp_all

theorem body_score (dt : ℚ) (r : Fin PIPE_COUNT_IN_SCREEN → ℤ × ℤ) (g : Game)
    (i : Fin PIPE_COUNT_IN_SCREEN) :
    (UpdatePipesBody dt r g i).score
      = g.score + (if (g.pipeArray i).hasBeenPassed = false
          ∧ g.bird.rectangle.x ≥ (g.pipeArray i).upperPipeRect.x + 5 then 1 else 0) := by
  unfold UpdatePipesBody
  dsimp only
  split_ifs <;> simp_all



theorem body_nearest (dt : ℚ) (r : Fin PIPE_COUNT_IN_SCREEN → ℤ × ℤ) (g : Game)
    (i : Fin PIPE_COUNT_IN_SCREEN) :
    (UpdatePipesBody dt r g i).nearestPipeIndex
      = if (g.pipeArray i).upperPipeRect.x + (PIPE_WIDTH : ℚ) < g.bird.rectangle.x then
          (if (i : ℤ) = (PIPE_COUNT_IN_SCREEN : ℤ) - 1 then 0 else (i : ℤ) + 1)
        else g.nearestPipeIndex := by
  unfold UpdatePipesBody
  dsimp only
  split_ifs <;> simp_all

theorem UpdatePipes_pipeArray (dt : ℚ) (r : Fin PIPE_COUNT_IN_SCREEN → ℤ × ℤ) (g : Game)
    (i : Fin PIPE_COUNT_IN_SCREEN) :
    (UpdatePipes dt r g).pipeArray i
      = pipeAfter dt (r i) g.pipeSpeed g.bird.rectangle.x (g.pipeArray i) := by
  rw [UpdatePipes_eq]
  revert i
  rw [Fin.forall_fin_two]
  constructor
  · rw [body_pipe_ne _ _ _ 1 0 (by decide), body_pipe_self]
  · rw [body_pipe_self, body_pipeSpeed, body_bird, body_pipe_ne _ _ _ 0 1 (by decide)]

theorem UpdatePipes_pipeSpeed (dt : ℚ) (r : Fin PIPE_COUNT_IN_SCREEN → ℤ × ℤ) (g : Game) :
    (UpdatePipes dt r g).pipeSpeed = g.pipeSpeed := by
  rw [UpdatePipes_eq, body_pipeSpeed, body_pipeSpeed]

theorem UpdatePipes_bird (dt : ℚ) (r : Fin PIPE_COUNT_IN_SCREEN → ℤ × ℤ) (g : Game) :
    (UpdatePipes dt r g).bird = g.bird := by
  rw [UpdatePipes_eq, body_bird, body_bird]

theorem body_highScore (dt : ℚ) (r : Fin PIPE_COUNT_IN_SCREEN → ℤ × ℤ) (g : Game)
    (i : Fin PIPE_COUNT_IN_SCREEN) : (UpdatePipesBody dt r g i).highScore = g.highScore := by
  unfold UpdatePipesBody
  dsimp only
  split_ifs <;> rfl

theorem body_isGameRunning (dt : ℚ) (r : Fin PIPE_COUNT_IN_SCREEN → ℤ × ℤ) (g : Game)
    (i : Fin PIPE_COUNT_IN_SCREEN) :
    (UpdatePipesBody dt r g i).isGameRunning = g.isGameRunning := by
  unfold UpdatePipesBody
  dsimp only
  split_ifs <;> rfl

theorem UpdatePipes_highScore (dt : ℚ) (r : Fin PIPE_COUNT_IN_SCREEN → ℤ × ℤ) (g : Game) :
    (UpdatePipes dt r g).highScore = g.highScore := by
  rw [UpdatePipes_eq, body_highScore, body_highScore]

theorem UpdatePipes_isGameRunning (dt : ℚ) (r : Fin PIPE_COUNT_IN_SCREEN → ℤ × ℤ) (g : Game) :
    (UpdatePipes dt r g).isGameRunning = g.isGameRunning := by
  rw [UpdatePipes_eq, body_isGameRunning, body_isGameRunning]

theorem UpdatePipes_score (dt : ℚ) (r : Fin PIPE_COUNT_IN_SCREEN → ℤ × ℤ) (g : Game) :
    (UpdatePipes dt r g).score
      = g.score + (if (g.pipeArray 0).hasBeenPassed = false
          ∧ g.bird.rectangle.x ≥ (g.pipeArray 0).upperPipeRect.x + 5 then 1 else 0)
        + (if (g.pipeArray 1).hasBeenPassed = false
          ∧ g.bird.rectangle.x ≥ (g.pipeArray 1).upperPipeRect.x + 5 then 1 else 0) := by
  rw [UpdatePipes_eq, body_score, body_score, body_bird, body_pipe_ne _ _ _ 0 1 (by decide)]

theorem pipeAfter_x (dt : ℚ) (rnd : ℤ × ℤ) (pipeSpeed birdX : ℚ) (p : Pipe) :
    (pipeAfter dt rnd pipeSpeed birdX p).upperPipeRect.x
      = (if p.upperPipeRect.x ≤ -(PIPE_WIDTH : ℚ) then (screenWidth : ℚ) else p.upperPipeRect.x)
        - pipeSpeed * dt := by
  unfold pipeAfter MovePipe
  dsimp only
  split_ifs <;> simp [CreateRandomPipe, CreatePipe]

theorem pipeAfter_lower_x (dt : ℚ) (rnd : ℤ × ℤ) (pipeSpeed birdX : ℚ) (p : Pipe) :
    (pipeAfter dt rnd pipeSpeed birdX p).lowerPipeRect.x
      = (if p.upperPipeRect.x ≤ -(PIPE_WIDTH : ℚ) then (screenWidth : ℚ) else p.lowerPipeRect.x)
        - pipeSpeed * dt := by
  unfold pipeAfter MovePipe
  dsimp only
  split_ifs <;> simp [CreateRandomPipe, CreatePipe]

theorem pipeAfter_hasBeenPassed (dt : ℚ) (rnd : ℤ × ℤ) (pipeSpeed birdX : ℚ) (p : Pipe) :
    (pipeAfter dt rnd pipeSpeed birdX p).hasBeenPassed
      = (if p.upperPipeRect.x ≤ -(PIPE_WIDTH : ℚ) then false
         else (p.hasBeenPassed || decide (birdX ≥ p.upperPipeRect.x + 5))) := by
  unfold pipeAfter MovePipe
  dsimp only
  rcases Bool.eq_false_or_eq_true p.hasBeenPassed with hp | hp <;>
    split_ifs <;> simp_all [CreateRandomPipe, CreatePipe]

/-! ## Lemmas on `InitializePipes` and `UpdateBird` -/

theorem InitializePipes_apply (r : Fin PIPE_COUNT_IN_SCREEN → ℤ × ℤ)
    (a : Fin PIPE_COUNT_IN_SCREEN → Pipe) (i : Fin PIPE_COUNT_IN_SCREEN) :
    InitializePipes r a i = CreateRandomPipe (r i) (screenWidth + (i : ℤ) * (pipeOffset + PIPE_WIDTH)) := by
  unfold InitializePipes
  rw [finRange_pipes]
  fin_cases i <;> simp [Function.update]

theorem pipeOffset_eq : pipeOffset = 350 := by decide

theorem UpdateBird_velocity (k : Bool) (dt : ℚ) (b : Bird) :
    (UpdateBird k dt b).velocity
      = (if k = true then -(BIRD_JUMP_SPEED : ℚ) else b.velocity) + (GRAVITY : ℚ) * dt := by
  unfold UpdateBird
  dsimp only
  cases k <;> split_ifs <;> simp

theorem UpdateBird_rotation (k : Bool) (dt : ℚ) (b : Bird) :
    (UpdateBird k dt b).rotation
      = if (UpdateBird k dt b).velocity < 0 then -(BIRD_JUMP_ROTATION : ℚ)
        else if (UpdateBird k dt b).velocity > 0 then (BIRD_JUMP_ROTATION : ℚ) else 0 := by
  rw [UpdateBird_velocity]
  unfold UpdateBird
  dsimp only
  cases k <;> split_ifs <;> simp

theorem UpdateBird_rectangle (k : Bool) (dt : ℚ) (b : Bird) :
    (UpdateBird k dt b).rectangle
      = { b.rectangle with y := b.rectangle.y + (UpdateBird k dt b).velocity * dt } := by
  rw [UpdateBird_velocity]
  unfold UpdateBird
  dsimp only
  cases k <;> split_ifs <;> simp

/-! ## Lemmas on `CheckCollision` and `UpdateGame` -/

theorem pipeAt_isSome (a : Fin PIPE_COUNT_IN_SCREEN → Pipe) (n : ℤ)
    (h : 0 ≤ n ∧ n < (PIPE_COUNT_IN_SCREEN : ℤ)) : ∃ p, pipeAt a n = some p := by
  unfold pipeAt
  rw [dif_pos h]
  exact ⟨_, rfl⟩

theorem CheckCollisionPipes_eq (m : Libm) (g : Game) :
    CheckCollisionPipes m g
      = (pipeAt g.pipeArray g.nearestPipeIndex).map (fun nearest =>
          if (CheckCollisionPointRec (rotatedTopRight m g.bird) nearest.upperPipeRect
              || CheckCollisionPointRec (rotatedBottomRight m g.bird) nearest.lowerPipeRect
              || CheckCollisionPointRec (rotatedTopRight m g.bird) nearest.lowerPipeRect
              || CheckCollisionPointRec (rotatedBottomRight m g.bird) nearest.upperPipeRect)
              = true then
            (gameOver g, some Message.pipe)
          else (g, none)) := by
  unfold CheckCollisionPipes
  cases pipeAt g.pipeArray g.nearestPipeIndex with
  | none => rfl
  | some p =>
    simp only [Option.map_some']
    by_cases hc : (CheckCollisionPointRec (rotatedTopRight m g.bird) p.upperPipeRect
              || CheckCollisionPointRec (rotatedBottomRight m g.bird) p.lowerPipeRect
              || CheckCollisionPointRec (rotatedTopRight m g.bird) p.lowerPipeRect
              || CheckCollisionPointRec (rotatedBottomRight m g.bird) p.upperPipeRect) = true
    · rw [if_pos hc, if_pos hc]
      rfl
    · rw [if_neg hc, if_neg hc]

theorem CheckCollision_eq (m : Libm) (g : Game) :
    CheckCollision m g
      = if g.bird.rotation < 0 then
          if (rotatedTopRight m g.bird).y < 0 then some (gameOver g, some Message.ceiling)
          else CheckCollisionPipes m g
        else if g.bird.rotation > 0 then
          if (rotatedBottomRight m g.bird).y > (screenHeight : ℚ) then
            some (gameOver g, some Message.floor)
          else CheckCollisionPipes m g
        else CheckCollisionPipes m g := by
  rfl

theorem CheckCollisionPipes_cases (m : Libm) (g gc : Game) (msg : Option Message)
    (h : CheckCollisionPipes m g = some (gc, msg)) :
    (msg = none ∧ gc = g) ∨ (msg = some Message.pipe ∧ gc = gameOver g) := by
  rw [CheckCollisionPipes_eq] at h
  cases hp : pipeAt g.pipeArray g.nearestPipeIndex with
  | none => rw [hp] at h; exact absurd h (by simp)
  | some p =>
    rw [hp] at h
    simp only [Option.map_some', Option.some.injEq] at h
    split_ifs at h
    · right
      simp only [Prod.mk.injEq] at h
      exact ⟨h.2.symm, h.1.symm⟩
    · left
      simp only [Prod.mk.injEq] at h
      exact ⟨h.2.symm, h.1.symm⟩

theorem CheckCollisionPipes_isSome (m : Libm) (g : Game)
    (h : 0 ≤ g.nearestPipeIndex ∧ g.nearestPipeIndex < (PIPE_COUNT_IN_SCREEN : ℤ)) :
    ∃ res, CheckCollisionPipes m g = some res := by
  obtain ⟨p, hp⟩ := pipeAt_isSome g.pipeArray g.nearestPipeIndex h
  rw [CheckCollisionPipes_eq, hp]
  exact ⟨_, rfl⟩

theorem CheckCollision_cases (m : Libm) (g gc : Game) (msg : Option Message)
    (h : CheckCollision m g = some (gc, msg)) :
    (msg = none ∧ gc = g) ∨ (msg ≠ none ∧ gc = gameOver g) := by
  rw [CheckCollision_eq] at h
  have hp : CheckCollisionPipes m g = some (gc, msg) →
      (msg = none ∧ gc = g) ∨ (msg ≠ none ∧ gc = gameOver g) := by
    intro h'
    rcases CheckCollisionPipes_cases m g gc msg h' with h1 | h1
    · exact Or.inl h1
    · exact Or.inr ⟨by rw [h1.1]; simp, h1.2⟩
  split_ifs at h
  · simp only [Option.some.injEq, Prod.mk.injEq] at h
    exact Or.inr ⟨by rw [← h.2]; simp, h.1.symm⟩
  · exact hp h
  · simp only [Option.some.injEq, Prod.mk.injEq] at h
    exact Or.inr ⟨by rw [← h.2]; simp, h.1.symm⟩
  · exact hp h
  · exact hp h

theorem CheckCollision_isSome (m : Libm) (g : Game)
    (h : 0 ≤ g.nearestPipeIndex ∧ g.nearestPipeIndex < (PIPE_COUNT_IN_SCREEN : ℤ)) :
    ∃ res, CheckCollision m g = some res := by
  rw [CheckCollision_eq]
  split_ifs
  · exact ⟨_, rfl⟩
  · exact CheckCollisionPipes_isSome m g h
  · exact ⟨_, rfl⟩
  · exact CheckCollisionPipes_isSome m g h
  · exact CheckCollisionPipes_isSome m g h

theorem gameOver_highScore (g : Game) : (gameOver g).highScore = max g.score g.highScore := by
  unfold gameOver
  dsimp only
  rcases le_total g.score g.highScore with h | h
  · rw [max_eq_right h, if_neg (not_lt.mpr h)]
  · rw [max_eq_left h]
    split_ifs with h'
    · rfl
    · exact le_antisymm h (not_lt.mp h')

theorem rampSpeed_highScore (g : Game) : (rampSpeed g).highScore = g.highScore := by
  unfold rampSpeed
  split_ifs <;> rfl

theorem rampSpeed_isGameRunning (g : Game) : (rampSpeed g).isGameRunning = g.isGameRunning := by
  unfold rampSpeed
  split_ifs <;> rfl

theorem rampSpeed_score (g : Game) : (rampSpeed g).score = g.score := by
  unfold rampSpeed
  split_ifs <;> rfl

theorem rampSpeed_nearestPipeIndex (g : Game) :
    (rampSpeed g).nearestPipeIndex = g.nearestPipeIndex := by
  unfold rampSpeed
  split_ifs <;> rfl

theorem UpdateGame_running (m : Libm) (inp : Input) (g : Game) (h : g.isGameRunning = true) :
    UpdateGame m inp g
      = (CheckCollision m (beforeCollisionCheck inp g)).map (fun res => rampSpeed res.1) := by
  unfold UpdateGame beforeCollisionCheck
  rw [if_pos h]
  dsimp only
  cases CheckCollision m (UpdatePipes inp.frameTime inp.random
      { g with bird := UpdateBird inp.keySpace inp.frameTime g.bird }) with
  | none => rfl
  | some res => rfl

theorem beforeCollisionCheck_highScore (inp : Input) (g : Game) :
    (beforeCollisionCheck inp g).highScore = g.highScore := by
  unfold beforeCollisionCheck
  rw [UpdatePipes_highScore]

theorem beforeCollisionCheck_isGameRunning (inp : Input) (g : Game) :
    (beforeCollisionCheck inp g).isGameRunning = g.isGameRunning := by
  unfold beforeCollisionCheck
  rw [UpdatePipes_isGameRunning]

theorem UpdatePipes_nearest_bounds (dt : ℚ) (r : Fin PIPE_COUNT_IN_SCREEN → ℤ × ℤ) (g : Game)
    (h : 0 ≤ g.nearestPipeIndex ∧ g.nearestPipeIndex < (PIPE_COUNT_IN_SCREEN : ℤ)) :
    0 ≤ (UpdatePipes dt r g).nearestPipeIndex
      ∧ (UpdatePipes dt r g).nearestPipeIndex < (PIPE_COUNT_IN_SCREEN : ℤ) := by
  rw [UpdatePipes_eq, body_nearest, body_nearest]
  split_ifs <;> simp_all

theorem beforeCollisionCheck_nearest_bounds (inp : Input) (g : Game)
    (h : 0 ≤ g.nearestPipeIndex ∧ g.nearestPipeIndex < (PIPE_COUNT_IN_SCREEN : ℤ)) :
    0 ≤ (beforeCollisionCheck inp g).nearestPipeIndex
      ∧ (beforeCollisionCheck inp g).nearestPipeIndex < (PIPE_COUNT_IN_SCREEN : ℤ) := by
  unfold beforeCollisionCheck
  exact UpdatePipes_nearest_bounds _ _ _ h

theorem UpdateGame_isSome (m : Libm) (inp : Input) (g : Game)
    (h : 0 ≤ g.nearestPipeIndex ∧ g.nearestPipeIndex < (PIPE_COUNT_IN_SCREEN : ℤ)) :
    ∃ g', UpdateGame m inp g = some g' := by
  by_cases hr : g.isGameRunning = true
  · rw [UpdateGame_running m inp g hr]
    obtain ⟨res, hres⟩ := CheckCollision_isSome m _ (beforeCollisionCheck_nearest_bounds inp g h)
    rw [hres]
    exact ⟨_, rfl⟩
  · unfold UpdateGame
    rw [if_neg hr]
    split_ifs
    · exact ⟨_, rfl⟩
    · exact ⟨_, rfl⟩

theorem UpdateGame_nearest_bounds (m : Libm) (inp : Input) (g g' : Game)
    (hstep : UpdateGame m inp g = some g')
    (h : 0 ≤ g.nearestPipeIndex ∧ g.nearestPipeIndex < (PIPE_COUNT_IN_SCREEN : ℤ)) :
    0 ≤ g'.nearestPipeIndex ∧ g'.nearestPipeIndex < (PIPE_COUNT_IN_SCREEN : ℤ) := by
  by_cases hr : g.isGameRunning = true
  · rw [UpdateGame_running m inp g hr] at hstep
    cases hc : CheckCollision m (beforeCollisionCheck inp g) with
    | none => rw [hc] at hstep; exact absurd hstep (by simp)
    | some res =>
      rw [hc] at hstep
      simp only [Option.map_some', Option.some.injEq] at hstep
      have hb := beforeCollisionCheck_nearest_bounds inp g h
      rcases CheckCollision_cases m _ res.1 res.2 hc with h1 | h1
      · rw [← hstep, rampSpeed_nearestPipeIndex, h1.2]
        exact hb
      · rw [← hstep, rampSpeed_nearestPipeIndex, h1.2]
        exact hb
  · unfold UpdateGame at hstep
    rw [if_neg hr] at hstep
    split_ifs at hstep
    · simp only [Option.some.injEq] at hstep
      rw [← hstep]
      exact h
    · simp only [Option.some.injEq] at hstep
      rw [← hstep]
      exact h

theorem UpdateGame_highScore_le (m : Libm) (inp : Input) (g g' : Game)
    (hstep : UpdateGame m inp g = some g') : g.highScore ≤ g'.highScore := by
  by_cases hr : g.isGameRunning = true
  · rw [UpdateGame_running m inp g hr] at hstep
    cases hc : CheckCollision m (beforeCollisionCheck inp g) with
    | none => rw [hc] at hstep; exact absurd hstep (by simp)
    | some res =>
      rw [hc] at hstep
      simp only [Option.map_some', Option.some.injEq] at hstep
      rcases CheckCollision_cases m _ res.1 res.2 hc with h1 | h1
      · rw [← hstep, rampSpeed_highScore, h1.2, beforeCollisionCheck_highScore]
      · rw [← hstep, rampSpeed_highScore, h1.2, gameOver_highScore,
          beforeCollisionCheck_highScore]
        exact le_max_right _ _
  · unfold UpdateGame at hstep
    rw [if_neg hr] at hstep
    split_ifs at hstep
    · simp only [Option.some.injEq] at hstep
      rw [← hstep]
      exact le_of_eq rfl
    · simp only [Option.some.injEq] at hstep
      rw [← hstep]

theorem UpdateGameN_highScore_le (m : Libm) (inps : List Input) :
    ∀ g g', UpdateGameN m inps g = some g' → g.highScore ≤ g'.highScore := by
  induction inps with
  | nil =>
    intro g g' h
    simp only [UpdateGameN, Option.some.injEq] at h
    rw [h]
  | cons inp rest ih =>
    intro g g' h
    simp only [UpdateGameN] at h
    cases h1 : UpdateGame m inp g with
    | none => rw [h1] at h; exact absurd h (by simp)
    | some g1 =>
      rw [h1] at h
      exact le_trans (UpdateGame_highScore_le m inp g g1 h1) (ih g1 g' h)

theorem UpdateGameN_isSome (m : Libm) (inps : List Input) :
    ∀ g, (0 ≤ g.nearestPipeIndex ∧ g.nearestPipeIndex < (PIPE_COUNT_IN_SCREEN : ℤ)) →
      ∃ g', UpdateGameN m inps g = some g' := by
  induction inps with
  | nil => intro g _; exact ⟨g, rfl⟩
  | cons inp rest ih =>
    intro g h
    obtain ⟨g1, h1⟩ := UpdateGame_isSome m inp g h
    obtain ⟨g2, h2⟩ := ih g1 (UpdateGame_nearest_bounds m inp g g1 h1 h)
    refine ⟨g2, ?_⟩
    simp only [UpdateGameN, h1, Option.some_bind, h2]

/-! ## Frames on resting states -/

theorem Game.ext_fields (g h : Game) (h1 : g.pipeSpeed = h.pipeSpeed) (h2 : g.bird = h.bird)
    (h3 : g.nearestPipeIndex = h.nearestPipeIndex) (h4 : g.score = h.score)
    (h5 : g.highScore = h.highScore) (h6 : g.isGameRunning = h.isGameRunning)
    (h7 : ∀ i, g.pipeArray i = h.pipeArray i) : g = h := by
  cases g
  cases h
  simp only [Game.mk.injEq]
  exact ⟨h1, h2, h3, h4, h5, h6, funext h7⟩

theorem CreateRandomPipe_eq_pipeShape (rnd : ℤ × ℤ) (x : ℤ) :
    CreateRandomPipe rnd x = pipeShape rnd (x : ℚ) false := rfl

theorem pipeAfter_pipeShape (dt : ℚ) (rnd rnd' : ℤ × ℤ) (s bx x : ℚ) (f : Bool) :
    pipeAfter dt rnd' s bx (pipeShape rnd x f)
      = if x ≤ -(PIPE_WIDTH : ℚ) then pipeShape rnd' ((screenWidth : ℚ) - s * dt) false
        else pipeShape rnd (x - s * dt) (f || decide (bx ≥ x + 5)) := by
  unfold pipeAfter
  by_cases h : x ≤ -(PIPE_WIDTH : ℚ)
  · rw [if_pos (show (pipeShape rnd x f).upperPipeRect.x ≤ -(PIPE_WIDTH : ℚ) from h), if_pos h]
    rfl
  · rw [if_neg (show ¬ (pipeShape rnd x f).upperPipeRect.x ≤ -(PIPE_WIDTH : ℚ) from h), if_neg h]
    cases f <;> by_cases h2 : bx ≥ x + 5 <;> simp [pipeShape, MovePipe, h2]

theorem UpdatePipes_nearestPipeIndex (dt : ℚ) (r : Fin PIPE_COUNT_IN_SCREEN → ℤ × ℤ) (g : Game) :
    (UpdatePipes dt r g).nearestPipeIndex
      = if (g.pipeArray 1).upperPipeRect.x + (PIPE_WIDTH : ℚ) < g.bird.rectangle.x then 0
        else if (g.pipeArray 0).upperPipeRect.x + (PIPE_WIDTH : ℚ) < g.bird.rectangle.x then 1
        else g.nearestPipeIndex := by
  rw [UpdatePipes_eq, body_nearest, body_nearest, body_bird,
    body_pipe_ne _ _ _ 0 1 (by decide)]
  simp

theorem halfScreenHeight : Int.tdiv GetScreenHeight 2 = 400 := by decide

theorem UpdateBird_press_resting : UpdateBird true (5 / 17) InitializeBird = InitializeBird := by
  simp [UpdateBird, InitializeBird, BIRD_JUMP_SPEED, GRAVITY]
  norm_num

theorem UpdateBird_idle_resting : UpdateBird false 0 InitializeBird = InitializeBird := by
  simp [UpdateBird, InitializeBird]

theorem rotatedTopRight_resting : rotatedTopRight taylorLibm InitializeBird = ⟨270, 400⟩ := by
  simp [rotatedTopRight, InitializeBird, taylorLibm, Vector2RotateRel, Vector2Rotate,
    Vector2Add, Vector2Subtract, BIRD_WIDTH, BIRD_HEIGHT, halfScreenHeight]
  norm_num

theorem rotatedBottomRight_resting : rotatedBottomRight taylorLibm InitializeBird = ⟨270, 450⟩ := by
  simp [rotatedBottomRight, InitializeBird, taylorLibm, Vector2RotateRel, Vector2Rotate,
    Vector2Add, Vector2Subtract, BIRD_WIDTH, BIRD_HEIGHT, halfScreenHeight]
  norm_num



theorem beforeCollisionCheck_resting (inp : Input)
    (hb : UpdateBird inp.keySpace inp.frameTime InitializeBird = InitializeBird)
    (hr : inp.random = startDraws)
    (p x0 x1 : ℚ) (f0 f1 : Bool) (n sc hs : ℤ) (run : Bool) :
    beforeCollisionCheck inp (restingState p x0 x1 f0 f1 n sc hs run)
      = restingState p
          ((if x0 ≤ -100 then 800 else x0) - p * inp.frameTime)
          ((if x1 ≤ -100 then 800 else x1) - p * inp.frameTime)
          (if x0 ≤ -100 then false else (f0 || decide (200 ≥ x0 + 5)))
          (if x1 ≤ -100 then false else (f1 || decide (200 ≥ x1 + 5)))
          (if x1 + 100 < 200 then 0 else if x0 + 100 < 200 then 1 else n)
          (sc + (if f0 = false ∧ 200 ≥ x0 + 5 then 1 else 0)
            + (if f1 = false ∧ 200 ≥ x1 + 5 then 1 else 0))
          hs run := by
  have hW : (PIPE_WIDTH : ℚ) = 100 := by norm_num [PIPE_WIDTH]
  have hS : (screenWidth : ℚ) = 800 := by norm_num [screenWidth]
  have hstate : ({ restingState p x0 x1 f0 f1 n sc hs run with
        bird := UpdateBird inp.keySpace inp.frameTime
          (restingState p x0 x1 f0 f1 n sc hs run).bird } : Game)
      = restingState p x0 x1 f0 f1 n sc hs run := by
    show ({ restingState p x0 x1 f0 f1 n sc hs run with
        bird := UpdateBird inp.keySpace inp.frameTime InitializeBird } : Game) = _
    rw [hb]
    rfl
  have hx : (restingState p x0 x1 f0 f1 n sc hs run).bird.rectangle.x = 200 := rfl
  have hp0 : (restingState p x0 x1 f0 f1 n sc hs run).pipeArray 0
      = pipeShape (300, 250) x0 f0 := rfl
  have hp1 : (restingState p x0 x1 f0 f1 n sc hs run).pipeArray 1
      = pipeShape (20, 150) x1 f1 := rfl
  have hu0 : (pipeShape (300, 250) x0 f0).upperPipeRect.x = x0 := rfl
  have hu1 : (pipeShape (20, 150) x1 f1).upperPipeRect.x = x1 := rfl
  have hf0 : (pipeShape (300, 250) x0 f0).hasBeenPassed = f0 := rfl
  have hf1 : (pipeShape (20, 150) x1 f1).hasBeenPassed = f1 := rfl
  unfold beforeCollisionCheck
  rw [hstate]
  apply Game.ext_fields
  · rw [UpdatePipes_pipeSpeed]; rfl
  · rw [UpdatePipes_bird]; rfl
  · rw [UpdatePipes_nearestPipeIndex, hx, hp0, hp1, hu0, hu1, hW]
    rfl
  · rw [UpdatePipes_score, hx, hp0, hp1, hu0, hu1, hf0, hf1]
    rfl
  · rw [UpdatePipes_highScore]; rfl
  · rw [UpdatePipes_isGameRunning]; rfl
  · intro i
    rw [UpdatePipes_pipeArray, hr, hx]
    revert i
    rw [Fin.forall_fin_two]
    constructor
    · rw [hp0, pipeAfter_pipeShape, hW, hS]
      by_cases h : x0 ≤ -100
      · simp only [restingState, if_pos h]
        rfl
      · simp only [restingState, if_neg h]
        rfl
    · rw [hp1, pipeAfter_pipeShape, hW, hS]
      by_cases h : x1 ≤ -100
      · simp only [restingState, if_pos h]
        rfl
      · simp only [restingState, if_neg h]
        rfl

theorem CheckCollision_resting (p x0 x1 : ℚ) (f0 f1 : Bool) (n sc hs : ℤ) (run : Bool)
    (hn : n = 0 ∨ n = 1) :
    CheckCollision taylorLibm (restingState p x0 x1 f0 f1 n sc hs run)
      = some (if n = 1 ∧ x1 ≤ 270 ∧ 270 < x1 + 100 then
          (restingState p x0 x1 f0 f1 n sc (if sc > hs then sc else hs) false, some Message.pipe)
        else (restingState p x0 x1 f0 f1 n sc hs run, none)) := by
  rw [CheckCollision_eq]
  have hrot : (restingState p x0 x1 f0 f1 n sc hs run).bird.rotation = 0 := rfl
  rw [hrot, if_neg (lt_irrefl 0), if_neg (lt_irrefl 0), CheckCollisionPipes_eq]
  have hbird : (restingState p x0 x1 f0 f1 n sc hs run).bird = InitializeBird := rfl
  rw [hbird, rotatedTopRight_resting, rotatedBottomRight_resting]
  rcases hn with hn | hn
  · subst hn
    have hp : pipeAt (restingState p x0 x1 f0 f1 0 sc hs run).pipeArray
        (restingState p x0 x1 f0 f1 0 sc hs run).nearestPipeIndex
          = some (pipeShape (300, 250) x0 f0) := rfl
    rw [hp]
    simp [CheckCollisionPointRec, pipeShape, PIPE_WIDTH, screenHeight]
    norm_num
  · subst hn
    have hp : pipeAt (restingState p x0 x1 f0 f1 1 sc hs run).pipeArray
        (restingState p x0 x1 f0 f1 1 sc hs run).nearestPipeIndex
          = some (pipeShape (20, 150) x1 f1) := rfl
    rw [hp]
    simp [CheckCollisionPointRec, pipeShape, PIPE_WIDTH, screenHeight]
    norm_num
    by_cases h1 : x1 ≤ 270 <;> by_cases h2 : 270 < x1 + 100 <;> simp [h1, h2, gameOver, restingState]

theorem rampSpeed_resting (p x0 x1 : ℚ) (f0 f1 : Bool) (n sc hs : ℤ) (run : Bool) :
    rampSpeed (restingState p x0 x1 f0 f1 n sc hs run)
      = restingState (if p ≤ 450 then p + 3 / 100 else p) x0 x1 f0 f1 n sc hs run := by
  have hM : (PIPE_SPEED_MAX : ℚ) = 450 := by norm_num [PIPE_SPEED_MAX]
  unfold rampSpeed
  rw [show (restingState p x0 x1 f0 f1 n sc hs run).pipeSpeed = p from rfl, hM]
  split_ifs <;> rfl

theorem InitGame_startDraws (a : Fin PIPE_COUNT_IN_SCREEN → Pipe) :
    InitGame startDraws a = restingState 200 800 1250 false false 0 0 0 true := by
  apply Game.ext_fields
  · show (PIPE_SPEED_BASE : ℚ) = 200
    norm_num [PIPE_SPEED_BASE]
  · rfl
  · rfl
  · rfl
  · rfl
  · rfl
  · intro i
    show InitializePipes startDraws a i = _
    rw [InitializePipes_apply, CreateRandomPipe_eq_pipeShape, pipeOffset_eq]
    revert i
    rw [Fin.forall_fin_two]
    constructor
    · simp [restingState, startDraws, screenWidth]
    · simp [restingState, startDraws, screenWidth, PIPE_WIDTH]

theorem ResetGame_resting (p x0 x1 : ℚ) (f0 f1 : Bool) (n sc hs : ℤ) (run : Bool) :
    ResetGame startDraws (restingState p x0 x1 f0 f1 n sc hs run)
      = restingState 200 800 1250 false false n 0 hs true := by
  apply Game.ext_fields
  · show (PIPE_SPEED_BASE : ℚ) = 200
    norm_num [PIPE_SPEED_BASE]
  · rfl
  · rfl
  · rfl
  · rfl
  · rfl
  · intro i
    show InitializePipes startDraws _ i = _
    rw [InitializePipes_apply, CreateRandomPipe_eq_pipeShape, pipeOffset_eq]
    revert i
    rw [Fin.forall_fin_two]
    constructor
    · simp [restingState, startDraws, screenWidth]
    · simp [restingState, startDraws, screenWidth, PIPE_WIDTH]

theorem validInput_pressFrame : ValidInput pressFrame := by
  refine ⟨by norm_num [pressFrame], ?_⟩
  rw [Fin.forall_fin_two]
  constructor <;> decide

theorem validInput_idleFrame : ValidInput idleFrame := by
  refine ⟨by norm_num [idleFrame], ?_⟩
  rw [Fin.forall_fin_two]
  constructor <;> decide

theorem validDraw_startDraws : ∀ i, ValidDraw (startDraws i) := by
  rw [Fin.forall_fin_two]
  constructor <;> decide

theorem Reachable_UpdateGameN (m : Libm) (inps : List Input) :
    ∀ g g', Reachable m g → (∀ inp ∈ inps, ValidInput inp) →
      UpdateGameN m inps g = some g' → Reachable m g' := by
  induction inps with
  | nil =>
    intro g g' hg _ h
    simp only [UpdateGameN, Option.some.injEq] at h
    rw [← h]
    exact hg
  | cons inp rest ih =>
    intro g g' hg hv h
    simp only [UpdateGameN] at h
    cases h1 : UpdateGame m inp g with
    | none => rw [h1] at h; exact absurd h (by simp)
    | some g1 =>
      rw [h1] at h
      exact ih g1 g' (Reachable.frame inp g g1 hg (hv inp (List.mem_cons_self _ _)) h1)
        (fun i hi => hv i (List.mem_cons_of_mem _ hi)) h

theorem pressFrame_01 :
    UpdateGame taylorLibm pressFrame (restingState 200 800 1250 false false 0 0 0 true)
      = some (restingState (20003 / 100) (12600 / 17) (20250 / 17) false false 0 0 0 true) := by
  rw [UpdateGame_running _ _ _ rfl,
    beforeCollisionCheck_resting pressFrame UpdateBird_press_resting rfl]
  norm_num [pressFrame]
  rw [CheckCollision_resting _ _ _ _ _ _ _ _ _ (by norm_num)]
  norm_num [rampSpeed_resting]

theorem pressFrame_02 :
    UpdateGame taylorLibm pressFrame (restingState (20003 / 100) (12600 / 17) (20250 / 17) false false 0 0 0 true)
      = some (restingState (10003 / 50) (231997 / 340) (384997 / 340) false false 0 0 0 true) := by
  rw [UpdateGame_running _ _ _ rfl,
    beforeCollisionCheck_resting pressFrame UpdateBird_press_resting rfl]
  norm_num [pressFrame]
  rw [CheckCollision_resting _ _ _ _ _ _ _ _ _ (by norm_num)]
  norm_num [rampSpeed_resting]

theorem pressFrame_03 :
    UpdateGame taylorLibm pressFrame (restingState (10003 / 50) (231997 / 340) (384997 / 340) false false 0 0 0 true)
      = some (restingState (20009 / 100) (211991 / 340) (364991 / 340) false false 0 0 0 true) := by
  rw [UpdateGame_running _ _ _ rfl,
    beforeCollisionCheck_resting pressFrame UpdateBird_press_resting rfl]
  norm_num [pressFrame]
  rw [CheckCollision_resting _ _ _ _ _ _ _ _ _ (by norm_num)]
  norm_num [rampSpeed_resting]

theorem pressFrame_04 :
    UpdateGame taylorLibm pressFrame (restingState (20009 / 100) (211991 / 340) (364991 / 340) false false 0 0 0 true)
      = some (restingState (5003 / 25) (95991 / 170) (172491 / 170) false false 0 0 0 true) := by
  rw [UpdateGame_running _ _ _ rfl,
    beforeCollisionCheck_resting pressFrame UpdateBird_press_resting rfl]
  norm_num [pressFrame]
  rw [CheckCollision_resting _ _ _ _ _ _ _ _ _ (by norm_num)]
  norm_num [rampSpeed_resting]

theorem pressFrame_05 :
    UpdateGame taylorLibm pressFrame (restingState (5003 / 25) (95991 / 170) (172491 / 170) false false 0 0 0 true)
      = some (restingState (4003 / 20) (17197 / 34) (32497 / 34) false false 0 0 0 true) := by
  rw [UpdateGame_running _ _ _ rfl,
    beforeCollisionCheck_resting pressFrame UpdateBird_press_resting rfl]
  norm_num [pressFrame]
  rw [CheckCollision_resting _ _ _ _ _ _ _ _ _ (by norm_num)]
  norm_num [rampSpeed_resting]

theorem pressFrame_06 :
    UpdateGame taylorLibm pressFrame (restingState (4003 / 20) (17197 / 34) (32497 / 34) false false 0 0 0 true)
      = some (restingState (10009 / 50) (30391 / 68) (60991 / 68) false false 0 0 0 true) := by
  rw [UpdateGame_running _ _ _ rfl,
    beforeCollisionCheck_resting pressFrame UpdateBird_press_resting rfl]
  norm_num [pressFrame]
  rw [CheckCollision_resting _ _ _ _ _ _ _ _ _ (by norm_num)]
  norm_num [rampSpeed_resting]

theorem pressFrame_07 :
    UpdateGame taylorLibm pressFrame (restingState (10009 / 50) (30391 / 68) (60991 / 68) false false 0 0 0 true)
      = some (restingState (20021 / 100) (7761 / 20) (16761 / 20) false false 0 0 0 true) := by
  rw [UpdateGame_running _ _ _ rfl,
    beforeCollisionCheck_resting pressFrame UpdateBird_press_resting rfl]
  norm_num [pressFrame]
  rw [CheckCollision_resting _ _ _ _ _ _ _ _ _ (by norm_num)]
  norm_num [rampSpeed_resting]

theorem pressFrame_08 :
    UpdateGame taylorLibm pressFrame (restingState (20021 / 100) (7761 / 20) (16761 / 20) false false 0 0 0 true)
      = some (restingState (5006 / 25) (27979 / 85) (66229 / 85) false false 0 0 0 true) := by
  rw [UpdateGame_running _ _ _ rfl,
    beforeCollisionCheck_resting pressFrame UpdateBird_press_resting rfl]
  norm_num [pressFrame]
  rw [CheckCollision_resting _ _ _ _ _ _ _ _ _ (by norm_num)]
  norm_num [rampSpeed_resting]

theorem pressFrame_09 :
    UpdateGame taylorLibm pressFrame (restingState (5006 / 25) (27979 / 85) (66229 / 85) false false 0 0 0 true)
      = some (restingState (20027 / 100) (22973 / 85) (61223 / 85) false false 0 0 0 true) := by
  rw [UpdateGame_running _ _ _ rfl,
    beforeCollisionCheck_resting pressFrame UpdateBird_press_resting rfl]
  norm_num [pressFrame]
  rw [CheckCollision_resting _ _ _ _ _ _ _ _ _ (by norm_num)]
  norm_num [rampSpeed_resting]

theorem pressFrame_10 :
    UpdateGame taylorLibm pressFrame (restingState (20027 / 100) (22973 / 85) (61223 / 85) false false 0 0 0 true)
      = some (restingState (2003 / 10) (14373 / 68) (44973 / 68) false false 0 0 0 true) := by
  rw [UpdateGame_running _ _ _ rfl,
    beforeCollisionCheck_resting pressFrame UpdateBird_press_resting rfl]
  norm_num [pressFrame]
  rw [CheckCollision_resting _ _ _ _ _ _ _ _ _ (by norm_num)]
  norm_num [rampSpeed_resting]

theorem pressFrame_11 :
    UpdateGame taylorLibm pressFrame (restingState (2003 / 10) (14373 / 68) (44973 / 68) false false 0 0 0 true)
      = some (restingState (20033 / 100) (10367 / 68) (40967 / 68) false false 0 0 0 true) := by
  rw [UpdateGame_running _ _ _ rfl,
    beforeCollisionCheck_resting pressFrame UpdateBird_press_resting rfl]
  norm_num [pressFrame]
  rw [CheckCollision_resting _ _ _ _ _ _ _ _ _ (by norm_num)]
  norm_num [rampSpeed_resting]

theorem pressFrame_12 :
    UpdateGame taylorLibm pressFrame (restingState (20033 / 100) (10367 / 68) (40967 / 68) false false 0 0 0 true)
      = some (restingState (5009 / 25) (15901 / 170) (92401 / 170) true false 0 1 0 true) := by
  rw [UpdateGame_running _ _ _ rfl,
    beforeCollisionCheck_resting pressFrame UpdateBird_press_resting rfl]
  norm_num [pressFrame]
  rw [CheckCollision_resting _ _ _ _ _ _ _ _ _ (by norm_num)]
  norm_num [rampSpeed_resting]

theorem pressFrame_13 :
    UpdateGame taylorLibm pressFrame (restingState (5009 / 25) (15901 / 170) (92401 / 170) true false 0 1 0 true)
      = some (restingState (20039 / 100) (5883 / 170) (82383 / 170) true false 1 1 0 true) := by
  rw [UpdateGame_running _ _ _ rfl,
    beforeCollisionCheck_resting pressFrame UpdateBird_press_resting rfl]
  norm_num [pressFrame]
  rw [CheckCollision_resting _ _ _ _ _ _ _ _ _ (by norm_num)]
  norm_num [rampSpeed_resting]

theorem pressFrame_14 :
    UpdateGame taylorLibm pressFrame (restingState (20039 / 100) (5883 / 170) (82383 / 170) true false 1 1 0 true)
      = some (restingState (10021 / 50) (-8273 / 340) (144727 / 340) true false 1 1 0 true) := by
  rw [UpdateGame_running _ _ _ rfl,
    beforeCollisionCheck_resting pressFrame UpdateBird_press_resting rfl]
  norm_num [pressFrame]
  rw [CheckCollision_resting _ _ _ _ _ _ _ _ _ (by norm_num)]
  norm_num [rampSpeed_resting]

theorem pressFrame_15 :
    UpdateGame taylorLibm pressFrame (restingState (10021 / 50) (-8273 / 340) (144727 / 340) true false 1 1 0 true)
      = some (restingState (4009 / 20) (-5663 / 68) (24937 / 68) true false 1 1 0 true) := by
  rw [UpdateGame_running _ _ _ rfl,
    beforeCollisionCheck_resting pressFrame UpdateBird_press_resting rfl]
  norm_num [pressFrame]
  rw [CheckCollision_resting _ _ _ _ _ _ _ _ _ (by norm_num)]
  norm_num [rampSpeed_resting]

theorem pressFrame_16 :
    UpdateGame taylorLibm pressFrame (restingState (4009 / 20) (-5663 / 68) (24937 / 68) true false 1 1 0 true)
      = some (restingState (5012 / 25) (-2418 / 17) (5232 / 17) true false 1 1 0 true) := by
  rw [UpdateGame_running _ _ _ rfl,
    beforeCollisionCheck_resting pressFrame UpdateBird_press_resting rfl]
  norm_num [pressFrame]
  rw [CheckCollision_resting _ _ _ _ _ _ _ _ _ (by norm_num)]
  norm_num [rampSpeed_resting]

theorem pressFrame_17 :
    UpdateGame taylorLibm pressFrame (restingState (5012 / 25) (-2418 / 17) (5232 / 17) true false 1 1 0 true)
      = some (restingState (20051 / 100) (62988 / 85) (1244 / 5) false false 1 1 1 false) := by
  rw [UpdateGame_running _ _ _ rfl,
    beforeCollisionCheck_resting pressFrame UpdateBird_press_resting rfl]
  norm_num [pressFrame]
  rw [CheckCollision_resting _ _ _ _ _ _ _ _ _ (by norm_num)]
  norm_num [rampSpeed_resting]

theorem pressFrame_18 :
    UpdateGame taylorLibm pressFrame (restingState (20051 / 100) (62988 / 85) (1244 / 5) false false 1 1 1 false)
      = some (restingState 200 800 1250 false false 1 0 1 true) := by
  unfold UpdateGame
  rw [if_neg (by simp [restingState]), if_pos (show pressFrame.keySpace = true from rfl)]
  exact congrArg some (ResetGame_resting _ _ _ _ _ _ _ _ _)

theorem pressTrace :
    UpdateGameN taylorLibm (List.replicate 18 pressFrame) (InitGame startDraws startArray)
      = some (restingState 200 800 1250 false false 1 0 1 true) := by
  rw [InitGame_startDraws]
  simp only [List.replicate, UpdateGameN]
  rw [pressFrame_01, Option.some_bind, pressFrame_02, Option.some_bind, pressFrame_03, Option.some_bind, pressFrame_04, Option.some_bind, pressFrame_05, Option.some_bind, pressFrame_06, Option.some_bind, pressFrame_07, Option.some_bind, pressFrame_08, Option.some_bind, pressFrame_09, Option.some_bind, pressFrame_10, Option.some_bind, pressFrame_11, Option.some_bind, pressFrame_12, Option.some_bind, pressFrame_13, Option.some_bind, pressFrame_14, Option.some_bind, pressFrame_15, Option.some_bind, pressFrame_16, Option.some_bind, pressFrame_17, Option.some_bind, pressFrame_18, Option.some_bind]


theorem idleFrame_step (p : ℚ) (hp : p ≤ 450) :
    UpdateGame taylorLibm idleFrame (restingState p 800 1250 false false 0 0 0 true)
      = some (restingState (p + 3 / 100) 800 1250 false false 0 0 0 true) := by
  rw [UpdateGame_running _ _ _ rfl,
    beforeCollisionCheck_resting idleFrame UpdateBird_idle_resting rfl]
  norm_num [idleFrame]
  rw [CheckCollision_resting _ _ _ _ _ _ _ _ _ (by norm_num)]
  norm_num [rampSpeed_resting, hp]

theorem idleTrace (k : ℕ) :
    ∀ p : ℚ, p + (k : ℚ) * (3 / 100) ≤ 450 + 3 / 100 →
      UpdateGameN taylorLibm (List.replicate k idleFrame)
          (restingState p 800 1250 false false 0 0 0 true)
        = some (restingState (p + (k : ℚ) * (3 / 100)) 800 1250 false false 0 0 0 true) := by
  induction k with
  | zero =>
    intro p _
    simp [UpdateGameN]
  | succ k ih =>
    intro p hp
    push_cast at hp
    have hk : (0 : ℚ) ≤ (k : ℚ) := Nat.cast_nonneg k
    have hp1 : p ≤ 450 := by linarith
    simp only [List.replicate, UpdateGameN]
    rw [idleFrame_step p hp1, Option.some_bind, ih (p + 3 / 100) (by linarith)]
    push_cast
    congr 2
    ring

theorem rampSpeed_pipeSpeed_overshoot (g : Game)
    (h1 : (PIPE_SPEED_MAX : ℚ) - 3 / 100 < g.pipeSpeed) (h2 : g.pipeSpeed ≤ (PIPE_SPEED_MAX : ℚ)) :
    (PIPE_SPEED_MAX : ℚ) < (rampSpeed g).pipeSpeed := by
  unfold rampSpeed
  rw [if_pos h2]
  show (PIPE_SPEED_MAX : ℚ) < g.pipeSpeed + 3 / 100
  linarith

theorem CheckCollisionPipes_ne_ceiling (m : Libm) (g gc : Game) :
    CheckCollisionPipes m g ≠ some (gc, some Message.ceiling) := by
  intro h
  rcases CheckCollisionPipes_cases m g gc _ h with h1 | h1
  · exact absurd h1.1 (by simp)
  · exact absurd h1.1 (by simp)

/-! ## Lemmas on a running frame -/

theorem UpdateGame_running_cases (m : Libm) (inp : Input) (g g' : Game)
    (hr : g.isGameRunning = true) (hstep : UpdateGame m inp g = some g') :
    g' = rampSpeed (beforeCollisionCheck inp g)
      ∨ g' = rampSpeed (gameOver (beforeCollisionCheck inp g)) := by
  rw [UpdateGame_running m inp g hr] at hstep
  cases hc : CheckCollision m (beforeCollisionCheck inp g) with
  | none => rw [hc] at hstep; exact absurd hstep (by simp)
  | some res =>
    rw [hc] at hstep
    simp only [Option.map_some', Option.some.injEq] at hstep
    rcases CheckCollision_cases m _ res.1 res.2 hc with h1 | h1
    · left
      rw [← hstep, h1.2]
    · right
      rw [← hstep, h1.2]

theorem rampSpeed_pipeArray (g : Game) : (rampSpeed g).pipeArray = g.pipeArray := by
  unfold rampSpeed
  split_ifs <;> rfl

theorem UpdateGame_running_pipeArray (m : Libm) (inp : Input) (g g' : Game)
    (hr : g.isGameRunning = true) (hstep : UpdateGame m inp g = some g') :
    g'.pipeArray = (beforeCollisionCheck inp g).pipeArray := by
  rcases UpdateGame_running_cases m inp g g' hr hstep with h | h
  · rw [h, rampSpeed_pipeArray]
  · rw [h, rampSpeed_pipeArray]
    rfl

theorem UpdateGame_running_score (m : Libm) (inp : Input) (g g' : Game)
    (hr : g.isGameRunning = true) (hstep : UpdateGame m inp g = some g') :
    g'.score = (beforeCollisionCheck inp g).score := by
  rcases UpdateGame_running_cases m inp g g' hr hstep with h | h
  · rw [h, rampSpeed_score]
  · rw [h, rampSpeed_score]
    rfl

theorem UpdateBird_x (k : Bool) (dt : ℚ) (b : Bird) :
    (UpdateBird k dt b).rectangle.x = b.rectangle.x := by
  rw [UpdateBird_rectangle]

theorem rampSpeed_pipeSpeed_le (g : Game) (h : g.pipeSpeed ≤ (PIPE_SPEED_MAX : ℚ) + 3 / 100) :
    (rampSpeed g).pipeSpeed ≤ (PIPE_SPEED_MAX : ℚ) + 3 / 100 := by
  unfold rampSpeed
  split_ifs with h1
  · show g.pipeSpeed + 3 / 100 ≤ _
    linarith
  · exact h

/-- What does hold of the speed: in every reachable state `pipeSpeed` is at most one increment
above `PIPE_SPEED_MAX`. -/
theorem Reachable_pipeSpeed_le (m : Libm) (g : Game) (h : Reachable m g) :
    g.pipeSpeed ≤ (PIPE_SPEED_MAX : ℚ) + 3 / 100 := by
  induction h with
  | init random pipeArray _ =>
    show (PIPE_SPEED_BASE : ℚ) ≤ (PIPE_SPEED_MAX : ℚ) + 3 / 100
    norm_num [PIPE_SPEED_BASE, PIPE_SPEED_MAX]
  | frame inp g g' _ _ hstep ih =>
    by_cases hr : g.isGameRunning = true
    · have hb : (beforeCollisionCheck inp g).pipeSpeed = g.pipeSpeed := by
        unfold beforeCollisionCheck
        rw [UpdatePipes_pipeSpeed]
      rcases UpdateGame_running_cases m inp g g' hr hstep with h | h
      · rw [h]
        exact rampSpeed_pipeSpeed_le _ (by rw [hb]; exact ih)
      · rw [h]
        refine rampSpeed_pipeSpeed_le _ ?_
        show (beforeCollisionCheck inp g).pipeSpeed ≤ _
        rw [hb]
        exact ih
    · unfold UpdateGame at hstep
      rw [if_neg hr] at hstep
      split_ifs at hstep
      · simp only [Option.some.injEq] at hstep
        rw [← hstep]
        show (PIPE_SPEED_BASE : ℚ) ≤ (PIPE_SPEED_MAX : ℚ) + 3 / 100
        norm_num [PIPE_SPEED_BASE, PIPE_SPEED_MAX]
      · simp only [Option.some.injEq] at hstep
        rw [← hstep]
        exact ih

theorem DrawPauseScreen_fst (c : ℤ) :
    (DrawPauseScreen c).1 = if c + 1 > 90 then 0 else c + 1 := by
  unfold DrawPauseScreen
  dsimp only
  split_ifs <;> first | rfl | omega

theorem DrawPauseScreen_snd (c : ℤ) :
    (DrawPauseScreen c).2 = decide (c + 1 ≤ 45) := by
  unfold DrawPauseScreen
  dsimp only
  split_ifs <;> simp_all

theorem pauseCounter_eq (n : ℕ) : pauseCounter n = ((n % 91 : ℕ) : ℤ) := by
  induction n with
  | zero => rfl
  | succ n ih =>
    show (DrawPauseScreen (pauseCounter n)).1 = _
    rw [DrawPauseScreen_fst, ih]
    split_ifs with h
    · have : n % 91 = 90 := by omega
      have h2 : (n + 1) % 91 = 0 := by omega
      rw [h2]
      rfl
    · have h2 : (n + 1) % 91 = n % 91 + 1 := by omega
      rw [h2]
      push_cast
      rfl

theorem promptDrawn_eq (n : ℕ) : promptDrawn n = decide (n % 91 < 45) := by
  unfold promptDrawn
  rw [DrawPauseScreen_snd, pauseCounter_eq]
  by_cases h : n % 91 < 45
  · simp [h]
    omega
  · simp [h]
    omega

theorem rampSpeed_bird (g : Game) : (rampSpeed g).bird = g.bird := by
  unfold rampSpeed
  split_ifs <;> rfl

theorem beforeCollisionCheck_bird (inp : Input) (g : Game) :
    (beforeCollisionCheck inp g).bird = UpdateBird inp.keySpace inp.frameTime g.bird := by
  unfold beforeCollisionCheck
  rw [UpdatePipes_bird]

theorem beforeCollisionCheck_pipeArray (inp : Input) (g : Game) (i : Fin PIPE_COUNT_IN_SCREEN) :
    (beforeCollisionCheck inp g).pipeArray i
      = pipeAfter inp.frameTime (inp.random i) g.pipeSpeed g.bird.rectangle.x (g.pipeArray i) := by
  unfold beforeCollisionCheck
  rw [UpdatePipes_pipeArray]
  show pipeAfter _ _ g.pipeSpeed (UpdateBird inp.keySpace inp.frameTime g.bird).rectangle.x _ = _
  rw [UpdateBird_x]

theorem beforeCollisionCheck_score_ge (inp : Input) (g : Game) :
    g.score ≤ (beforeCollisionCheck inp g).score := by
  unfold beforeCollisionCheck
  rw [UpdatePipes_score]
  have h1 : ∀ (c : Prop) [Decidable c], (0 : ℤ) ≤ (if c then 1 else 0) := by
    intro c _
    split_ifs <;> decide
  show g.score ≤ g.score + _ + _
  linarith [h1 ((g.pipeArray 0).hasBeenPassed = false
      ∧ (UpdateBird inp.keySpace inp.frameTime g.bird).rectangle.x
          ≥ (g.pipeArray 0).upperPipeRect.x + 5),
    h1 ((g.pipeArray 1).hasBeenPassed = false
      ∧ (UpdateBird inp.keySpace inp.frameTime g.bird).rectangle.x
          ≥ (g.pipeArray 1).upperPipeRect.x + 5)]

/-- The four ways a frame can go: the session keeps running (no collision printed), the
session ends, the session is restarted, or an ended session stays as it is. -/
theorem UpdateGame_cases (m : Libm) (inp : Input) (g g' : Game)
    (hstep : UpdateGame m inp g = some g') :
    (g.isGameRunning = true
        ∧ CheckCollision m (beforeCollisionCheck inp g) = some (beforeCollisionCheck inp g, none)
        ∧ g' = rampSpeed (beforeCollisionCheck inp g))
    ∨ (g.isGameRunning = true ∧ g' = rampSpeed (gameOver (beforeCollisionCheck inp g)))
    ∨ (g.isGameRunning = false ∧ g' = ResetGame inp.random g)
    ∨ (g.isGameRunning = false ∧ g' = g) := by
  by_cases hr : g.isGameRunning = true
  · rw [UpdateGame_running m inp g hr] at hstep
    cases hc : CheckCollision m (beforeCollisionCheck inp g) with
    | none => rw [hc] at hstep; exact absurd hstep (by simp)
    | some res =>
      obtain ⟨gc, msg⟩ := res
      rw [hc] at hstep
      simp only [Option.map_some', Option.some.injEq] at hstep
      rcases CheckCollision_cases m _ gc msg hc with h1 | h1
      · left
        obtain ⟨hmsg, hgc⟩ := h1
        subst hmsg
        subst hgc
        exact ⟨hr, rfl, hstep.symm⟩
      · right
        left
        rw [← hstep, h1.2]
        exact ⟨hr, rfl⟩
  · have hf : g.isGameRunning = false := by
      cases h : g.isGameRunning
      · rfl
      · exact absurd h hr
    unfold UpdateGame at hstep
    rw [if_neg hr] at hstep
    split_ifs at hstep
    · simp only [Option.some.injEq] at hstep
      exact Or.inr (Or.inr (Or.inl ⟨hf, hstep.symm⟩))
    · simp only [Option.some.injEq] at hstep
      exact Or.inr (Or.inr (Or.inr ⟨hf, hstep.symm⟩))

theorem UpdateBird_rotation_values (k : Bool) (dt : ℚ) (b : Bird) :
    (UpdateBird k dt b).rotation = -(BIRD_JUMP_ROTATION : ℚ)
      ∨ (UpdateBird k dt b).rotation = 0
      ∨ (UpdateBird k dt b).rotation = (BIRD_JUMP_ROTATION : ℚ) := by
  rw [UpdateBird_rotation]
  split_ifs
  · exact Or.inl rfl
  · exact Or.inr (Or.inr rfl)
  · exact Or.inr (Or.inl rfl)

theorem Reachable_rotation (m : Libm) (g : Game) (h : Reachable m g) :
    g.bird.rotation = -(BIRD_JUMP_ROTATION : ℚ) ∨ g.bird.rotation = 0
      ∨ g.bird.rotation = (BIRD_JUMP_ROTATION : ℚ) := by
  induction h with
  | init random pipeArray _ => exact Or.inr (Or.inl rfl)
  | frame inp g g' _ _ hstep ih =>
    rcases UpdateGame_cases m inp g g' hstep with h | h | h | h
    · rw [h.2.2, rampSpeed_bird, beforeCollisionCheck_bird]
      exact UpdateBird_rotation_values _ _ _
    · have hb : (gameOver (beforeCollisionCheck inp g)).bird
          = UpdateBird inp.keySpace inp.frameTime g.bird := beforeCollisionCheck_bird inp g
      rw [h.2, rampSpeed_bird, hb]
      exact UpdateBird_rotation_values _ _ _
    · rw [h.2]
      exact Or.inr (Or.inl rfl)
    · rw [h.2]
      exact ih

theorem Reachable_nearest_bounds (m : Libm) (g : Game) (h : Reachable m g) :
    0 ≤ g.nearestPipeIndex ∧ g.nearestPipeIndex < (PIPE_COUNT_IN_SCREEN : ℤ) := by
  induction h with
  | init random pipeArray _ =>
    show (0 : ℤ) ≤ 0 ∧ (0 : ℤ) < (PIPE_COUNT_IN_SCREEN : ℤ)
    decide
  | frame inp g g' _ _ hstep ih => exact UpdateGame_nearest_bounds m inp g g' hstep ih

theorem Reachable_score (m : Libm) (g : Game) (h : Reachable m g) :
    0 ≤ g.score ∧ (g.isGameRunning = false → g.score ≤ g.highScore) := by
  induction h with
  | init random pipeArray _ =>
    exact ⟨le_refl _, fun h => absurd h (by simp [InitGame])⟩
  | frame inp g g' _ _ hstep ih =>
    rcases UpdateGame_cases m inp g g' hstep with h | h | h | h
    · rw [h.2.2, rampSpeed_score, rampSpeed_isGameRunning, beforeCollisionCheck_isGameRunning]
      refine ⟨le_trans ih.1 (beforeCollisionCheck_score_ge inp g), ?_⟩
      intro hf
      rw [h.1] at hf
      exact absurd hf (by simp)
    · rw [h.2, rampSpeed_score, rampSpeed_highScore, gameOver_highScore]
      refine ⟨le_trans ih.1 (beforeCollisionCheck_score_ge inp g), ?_⟩
      intro _
      exact le_max_left _ _
    · rw [h.2]
      exact ⟨le_refl _, fun hf => absurd hf (by simp [ResetGame])⟩
    · rw [h.2]
      exact ih

theorem CreateRandomPipe_shapeOK (rnd : ℤ × ℤ) (x : ℤ) (h : ValidDraw rnd) :
    PipeShapeOK (CreateRandomPipe rnd x) := by
  obtain ⟨⟨_, _⟩, h3, h4⟩ := h
  have e1 : (CreateRandomPipe rnd x).lowerPipeRect.y = ((rnd.1 + rnd.2 : ℤ) : ℚ) := rfl
  have e2 : (CreateRandomPipe rnd x).upperPipeRect.height = (rnd.1 : ℚ) := rfl
  have e3 : (CreateRandomPipe rnd x).lowerPipeRect.height
      = ((screenHeight - (rnd.1 + rnd.2) : ℤ) : ℚ) := rfl
  have q3 : (PIPE_GAP_MIN : ℚ) ≤ rnd.2 := by exact_mod_cast h3
  have q4 : (rnd.2 : ℚ) ≤ (PIPE_GAP_MAX : ℚ) := by exact_mod_cast h4
  refine ⟨rfl, rfl, rfl, rfl, ?_, ?_, ?_⟩
  · rw [e1, e3]
    push_cast
    ring
  · rw [e1, e2]
    push_cast
    linarith
  · rw [e1, e2]
    push_cast
    linarith

theorem MovePipe_shapeOK (s dt : ℚ) (p : Pipe) (h : PipeShapeOK p) :
    PipeShapeOK (MovePipe s dt p) := by
  obtain ⟨h1, h2, h3, h4, h5, h6, h7⟩ := h
  refine ⟨?_, h2, h3, h4, h5, h6, h7⟩
  show p.upperPipeRect.x - s * dt = p.lowerPipeRect.x - s * dt
  rw [h1]

theorem pipeAfter_shapeOK (dt : ℚ) (rnd : ℤ × ℤ) (s bx : ℚ) (p : Pipe) (hr : ValidDraw rnd)
    (h : PipeShapeOK p) : PipeShapeOK (pipeAfter dt rnd s bx p) := by
  unfold pipeAfter
  apply MovePipe_shapeOK
  split_ifs
  · exact CreateRandomPipe_shapeOK rnd _ hr
  · exact h
  · exact h

theorem pipeAfter_not_recycled (dt : ℚ) (rnd : ℤ × ℤ) (s bx : ℚ) (p : Pipe)
    (h : ¬ p.upperPipeRect.x ≤ -(PIPE_WIDTH : ℚ)) :
    pipeAfter dt rnd s bx p
      = { upperPipeRect := { p.upperPipeRect with x := p.upperPipeRect.x - s * dt }
          lowerPipeRect := { p.lowerPipeRect with x := p.lowerPipeRect.x - s * dt }
          color := p.color
          hasBeenPassed := (p.hasBeenPassed || decide (bx ≥ p.upperPipeRect.x + 5)) } := by
  unfold pipeAfter
  rw [if_neg h]
  rcases Bool.eq_false_or_eq_true p.hasBeenPassed with hp | hp <;>
    by_cases hb : bx ≥ p.upperPipeRect.x + 5 <;> simp [MovePipe, hp, hb]

theorem Reachable_shapeOK (m : Libm) (g : Game) (h : Reachable m g) :
    ∀ i, PipeShapeOK (g.pipeArray i) := by
  induction h with
  | init random pipeArray hr =>
    intro i
    show PipeShapeOK (InitializePipes random pipeArray i)
    rw [InitializePipes_apply]
    exact CreateRandomPipe_shapeOK _ _ (hr i)
  | frame inp g g' _ hi hstep ih =>
    intro i
    have hb : PipeShapeOK ((beforeCollisionCheck inp g).pipeArray i) := by
      rw [beforeCollisionCheck_pipeArray]
      exact pipeAfter_shapeOK _ _ _ _ _ (hi.2 i) (ih i)
    rcases UpdateGame_cases m inp g g' hstep with h | h | h | h
    · rw [h.2.2, rampSpeed_pipeArray]
      exact hb
    · rw [h.2, rampSpeed_pipeArray]
      exact hb
    · rw [h.2]
      show PipeShapeOK (InitializePipes inp.random g.pipeArray i)
      rw [InitializePipes_apply]
      exact CreateRandomPipe_shapeOK _ _ (hi.2 i)
    · rw [h.2]
      exact ih i

theorem rotatedTopRight_y (m : Libm) (b : Bird) :
    (rotatedTopRight m b).y
      = (b.rectangle.x + b.rectangle.width - (b.rectangle.x + b.rectangle.width / 2))
            * m.sinf (b.rotation * m.DEG2RAD)
          + (b.rectangle.y - (b.rectangle.y + b.rectangle.height / 2))
            * m.cosf (b.rotation * m.DEG2RAD)
          + (b.rectangle.y + b.rectangle.height / 2) := rfl

theorem rotatedBottomRight_y (m : Libm) (b : Bird) :
    (rotatedBottomRight m b).y
      = (b.rectangle.x + b.rectangle.width - (b.rectangle.x + b.rectangle.width / 2))
            * m.sinf (b.rotation * m.DEG2RAD)
          + (b.rectangle.y + b.rectangle.height - (b.rectangle.y + b.rectangle.height / 2))
            * m.cosf (b.rotation * m.DEG2RAD)
          + (b.rectangle.y + b.rectangle.height / 2) := rfl

theorem CheckCollision_none_rules (m : Libm) (g g2 : Game)
    (h : CheckCollision m g = some (g2, none)) :
    ¬ (g.bird.rotation < 0 ∧ (rotatedTopRight m g.bird).y < 0)
      ∧ ¬ (g.bird.rotation > 0 ∧ (rotatedBottomRight m g.bird).y > (screenHeight : ℚ)) := by
  rw [CheckCollision_eq] at h
  split_ifs at h with h1 h2 h3 h4
  · simp at h
  · exact ⟨fun hh => h2 hh.2, fun hh => h1.not_lt hh.1⟩
  · simp at h
  · exact ⟨fun hh => h1 hh.1, fun hh => h4 hh.2⟩
  · exact ⟨fun hh => h1 hh.1, fun hh => h3 hh.1⟩

/-- The bounds on the bird behind C18: in a reachable running state the bird has its width and
height, and `y` lies between the `y` at which the tilted-up top-right corner touches the
ceiling and the `y` at which the tilted-down bottom-right corner touches the floor. -/
theorem Reachable_bird_bounds (m : Libm) (hm : TiltSound m) (g : Game) (h : Reachable m g) :
    g.bird.rectangle.width = 70 ∧ g.bird.rectangle.height = 50
    ∧ (g.isGameRunning = true →
        35 * m.sinf ((BIRD_JUMP_ROTATION : ℚ) * m.DEG2RAD)
            + 25 * m.cosf ((BIRD_JUMP_ROTATION : ℚ) * m.DEG2RAD) - 25 ≤ g.bird.rectangle.y
        ∧ g.bird.rectangle.y
            ≤ 775 - 35 * m.sinf ((BIRD_JUMP_ROTATION : ℚ) * m.DEG2RAD)
              - 25 * m.cosf ((BIRD_JUMP_ROTATION : ℚ) * m.DEG2RAD)) := by
  obtain ⟨_, _, hce, hso, hs1, hs2, hc1, hc2⟩ := hm
  have hw0 : InitializeBird.rectangle.width = 70 := by
    show ((BIRD_WIDTH : ℤ) : ℚ) = 70
    norm_num [BIRD_WIDTH]
  have hh0 : InitializeBird.rectangle.height = 50 := by
    show ((BIRD_HEIGHT : ℤ) : ℚ) = 50
    norm_num [BIRD_HEIGHT]
  have hy0 : InitializeBird.rectangle.y = 400 := by
    show ((Int.tdiv GetScreenHeight 2 : ℤ) : ℚ) = 400
    rw [halfScreenHeight]
    norm_num
  have hS : (screenHeight : ℚ) = 800 := by norm_num [screenHeight]
  have hG : (0 : ℚ) < (GRAVITY : ℚ) := by norm_num [GRAVITY]
  induction h with
  | init random pipeArray _ =>
    refine ⟨hw0, hh0, fun _ => ?_⟩
    show _ ≤ InitializeBird.rectangle.y ∧ InitializeBird.rectangle.y ≤ _
    rw [hy0]
    constructor <;> linarith
  | frame inp g g' _ hi hstep ih =>
    obtain ⟨ihw, ihh, ihy⟩ := ih
    have hbw : (UpdateBird inp.keySpace inp.frameTime g.bird).rectangle.width = 70 := by
      rw [UpdateBird_rectangle]
      exact ihw
    have hbh : (UpdateBird inp.keySpace inp.frameTime g.bird).rectangle.height = 50 := by
      rw [UpdateBird_rectangle]
      exact ihh
    rcases UpdateGame_cases m inp g g' hstep with h | h | h | h
    · obtain ⟨hrun, hcc, hg'⟩ := h
      rw [hg', rampSpeed_bird, rampSpeed_isGameRunning, beforeCollisionCheck_bird]
      refine ⟨hbw, hbh, fun _ => ?_⟩
      obtain ⟨hno1, hno2⟩ := CheckCollision_none_rules m _ _ hcc
      rw [beforeCollisionCheck_bird, rotatedTopRight_y, hbw, hbh, UpdateBird_rotation] at hno1
      rw [beforeCollisionCheck_bird, rotatedBottomRight_y, hbw, hbh, UpdateBird_rotation, hS]
        at hno2
      obtain ⟨ihL, ihU⟩ := ihy hrun
      have hy : (UpdateBird inp.keySpace inp.frameTime g.bird).rectangle.y
          = g.bird.rectangle.y
            + (UpdateBird inp.keySpace inp.frameTime g.bird).velocity * inp.frameTime := by
        rw [UpdateBird_rectangle]
      have hdt : 0 ≤ inp.frameTime := hi.1
      have hR : (0 : ℚ) < (BIRD_JUMP_ROTATION : ℚ) := by norm_num [BIRD_JUMP_ROTATION]
      rcases lt_trichotomy (UpdateBird inp.keySpace inp.frameTime g.bird).velocity 0
        with hv | hv | hv
      · rw [if_pos hv, hce, hso] at hno1
        have hlt : -(BIRD_JUMP_ROTATION : ℚ) < 0 := by linarith
        have h1 := not_lt.mp (fun hh => hno1 ⟨hlt, hh⟩)
        have h2 : (UpdateBird inp.keySpace inp.frameTime g.bird).velocity * inp.frameTime ≤ 0 :=
          mul_nonpos_of_nonpos_of_nonneg hv.le hdt
        constructor <;> linarith
      · rw [hy, hv, zero_mul, add_zero]
        exact ⟨ihL, ihU⟩
      · rw [if_neg (not_lt.mpr hv.le), if_pos hv] at hno2
        have h1 := not_lt.mp (fun hh => hno2 ⟨hR, hh⟩)
        have h2 : 0 ≤ (UpdateBird inp.keySpace inp.frameTime g.bird).velocity * inp.frameTime :=
          mul_nonneg hv.le hdt
        constructor <;> linarith
    · rw [h.2, rampSpeed_bird, rampSpeed_isGameRunning]
      have hb : (gameOver (beforeCollisionCheck inp g)).bird
          = UpdateBird inp.keySpace inp.frameTime g.bird := beforeCollisionCheck_bird inp g
      rw [hb]
      refine ⟨hbw, hbh, fun hr => ?_⟩
      exact absurd hr (by simp [gameOver])
    · rw [h.2]
      refine ⟨hw0, hh0, fun _ => ?_⟩
      show _ ≤ InitializeBird.rectangle.y ∧ InitializeBird.rectangle.y ≤ _
      rw [hy0]
      constructor <;> linarith
    · rw [h.2]
      refine ⟨ihw, ihh, fun hr => ?_⟩
      rw [h.1] at hr
      exact absurd hr (by simp)

/-- The stand-in `taylorLibm` has the properties `TiltSound`. -/
theorem tiltSound_taylorLibm : TiltSound taylorLibm := by
  unfold TiltSound taylorLibm
  norm_num [BIRD_JUMP_ROTATION]

theorem pressTrace_11 :
    UpdateGameN taylorLibm (List.replicate 11 pressFrame) (InitGame startDraws startArray)
      = some (restingState (20033 / 100) (10367 / 68) (40967 / 68) false false 0 0 0 true) := by
  rw [InitGame_startDraws]
  simp only [List.replicate, UpdateGameN]
  rw [pressFrame_01, Option.some_bind, pressFrame_02, Option.some_bind, pressFrame_03,
    Option.some_bind, pressFrame_04, Option.some_bind, pressFrame_05, Option.some_bind,
    pressFrame_06, Option.some_bind, pressFrame_07, Option.some_bind, pressFrame_08,
    Option.some_bind, pressFrame_09, Option.some_bind, pressFrame_10, Option.some_bind,
    pressFrame_11, Option.some_bind]

theorem Reachable_pressTrace_11 :
    Reachable taylorLibm
      (restingState (20033 / 100) (10367 / 68) (40967 / 68) false false 0 0 0 true) := by
  refine Reachable_UpdateGameN taylorLibm _ _ _
    (Reachable.init startDraws startArray validDraw_startDraws) ?_ pressTrace_11
  intro inp hinp
  rw [List.eq_of_mem_replicate hinp]
  exact validInput_pressFrame

/-! ## Claims -/

/-- C1 (the code at the failing input). Start with the draws `startDraws` and run 18 frames,
each with SPACE pressed and frame time 5/17. Pipe 0 passes the bird (frame 13 sets the nearest
index to 1), the bird hits pipe 1 in frame 17, and frame 18 restarts the session. `ResetGame`
does not write `nearestPipeIndex`: the restarted session runs with index 1 while the new pipes
stand at `x = 800` and `x = 1250`. In the next frame `UpdatePipes` leaves the index at 1, so
`CheckCollision` tests pipe 1 although pipe 0 is the first pipe the bird has not passed. -/
theorem C1_restart_keeps_stale_nearest :
    UpdateGameN taylorLibm (List.replicate 18 pressFrame) (InitGame startDraws startArray)
      = some (restingState 200 800 1250 false false 1 0 1 true)
    ∧ Reachable taylorLibm (restingState 200 800 1250 false false 1 0 1 true)
    ∧ (restingState 200 800 1250 false false 1 0 1 true).isGameRunning = true
    ∧ (restingState 200 800 1250 false false 1 0 1 true).nearestPipeIndex = 1
    ∧ ((restingState 200 800 1250 false false 1 0 1 true).pipeArray 0).upperPipeRect.x = 800
    ∧ ((restingState 200 800 1250 false false 1 0 1 true).pipeArray 1).upperPipeRect.x = 1250
    ∧ (beforeCollisionCheck pressFrame
        (restingState 200 800 1250 false false 1 0 1 true)).nearestPipeIndex = 1
    ∧ ¬ NearestIsFirstUnpassed (restingState 200 800 1250 false false 1 0 1 true)
        (beforeCollisionCheck pressFrame
          (restingState 200 800 1250 false false 1 0 1 true)).nearestPipeIndex := by
  have hn : (beforeCollisionCheck pressFrame
        (restingState 200 800 1250 false false 1 0 1 true)).nearestPipeIndex = 1 := by
    rw [beforeCollisionCheck_resting pressFrame UpdateBird_press_resting rfl]
    show (if (1250 : ℚ) + 100 < 200 then (0 : ℤ) else if (800 : ℚ) + 100 < 200 then 1 else 1) = 1
    norm_num
  refine ⟨pressTrace, ?_, rfl, rfl, rfl, rfl, hn, ?_⟩
  · refine Reachable_UpdateGameN taylorLibm _ _ _
      (Reachable.init startDraws startArray validDraw_startDraws) ?_ pressTrace
    intro inp hinp
    rw [List.eq_of_mem_replicate hinp]
    exact validInput_pressFrame
  · rw [hn]
    rintro ⟨n, hn1, _, hmin⟩
    have hn' : n = 1 := by
      apply Fin.ext
      show (n : ℕ) = 1
      have h : ((n : ℕ) : ℤ) = 1 := hn1
      exact_mod_cast h
    subst hn'
    have h0 := hmin 0 (by
      show ¬ ((800 : ℚ) + (PIPE_WIDTH : ℚ) < 200)
      norm_num [PIPE_WIDTH])
    have h0' : (1250 : ℚ) ≤ 800 := h0
    norm_num at h0'

/-- C2 (the code at the failing input). From the initial state, 8334 running frames (here
frames without key press and with frame time 0, which change nothing but the speed) lead to
`pipeSpeed = 22501/50 = 450.02`, above `PIPE_SPEED_MAX = 450`: the test
`pipeSpeed <= PIPE_SPEED_MAX` is made before the increment and the sum is not clamped. -/
theorem C2_pipeSpeed_exceeds_max :
    UpdateGameN taylorLibm (List.replicate 8334 idleFrame) (InitGame startDraws startArray)
      = some (restingState (22501 / 50) 800 1250 false false 0 0 0 true)
    ∧ Reachable taylorLibm (restingState (22501 / 50) 800 1250 false false 0 0 0 true)
    ∧ (restingState (22501 / 50) 800 1250 false false 0 0 0 true).pipeSpeed = 22501 / 50
    ∧ (PIPE_SPEED_MAX : ℚ)
        < (restingState (22501 / 50) 800 1250 false false 0 0 0 true).pipeSpeed
    ∧ (∀ g : Game, (PIPE_SPEED_MAX : ℚ) - 3 / 100 < g.pipeSpeed →
        g.pipeSpeed ≤ (PIPE_SPEED_MAX : ℚ) → (PIPE_SPEED_MAX : ℚ) < (rampSpeed g).pipeSpeed) := by
  have ht : UpdateGameN taylorLibm (List.replicate 8334 idleFrame)
      (InitGame startDraws startArray)
        = some (restingState (22501 / 50) 800 1250 false false 0 0 0 true) := by
    rw [InitGame_startDraws, idleTrace 8334 200 (by norm_num)]
    norm_num
  refine ⟨ht, ?_, rfl, ?_, rampSpeed_pipeSpeed_overshoot⟩
  · refine Reachable_UpdateGameN taylorLibm _ _ _
      (Reachable.init startDraws startArray validDraw_startDraws) ?_ ht
    intro inp hinp
    rw [List.eq_of_mem_replicate hinp]
    exact validInput_idleFrame
  · show (PIPE_SPEED_MAX : ℚ) < 22501 / 50
    norm_num [PIPE_SPEED_MAX]

/-- C3 (amended). For positive speed and frame time, `UpdatePipes` moves a pipe that is not
recreated to `x - pipeSpeed * frameTime`, strictly left of `x` (both rectangles); a pipe that is
recreated (`x ≤ -PIPE_WIDTH` before the frame) ends at `screenWidth - pipeSpeed * frameTime`,
strictly left of the right edge of the screen. -/
theorem C3_UpdatePipes_moves_left (dt : ℚ) (r : Fin PIPE_COUNT_IN_SCREEN → ℤ × ℤ) (g : Game)
    (i : Fin PIPE_COUNT_IN_SCREEN) (hs : 0 < g.pipeSpeed) (hd : 0 < dt) :
    (¬ (g.pipeArray i).upperPipeRect.x ≤ -(PIPE_WIDTH : ℚ) →
        ((UpdatePipes dt r g).pipeArray i).upperPipeRect.x
            = (g.pipeArray i).upperPipeRect.x - g.pipeSpeed * dt
        ∧ ((UpdatePipes dt r g).pipeArray i).upperPipeRect.x < (g.pipeArray i).upperPipeRect.x
        ∧ ((UpdatePipes dt r g).pipeArray i).lowerPipeRect.x
            = (g.pipeArray i).lowerPipeRect.x - g.pipeSpeed * dt
        ∧ ((UpdatePipes dt r g).pipeArray i).lowerPipeRect.x < (g.pipeArray i).lowerPipeRect.x)
    ∧ ((g.pipeArray i).upperPipeRect.x ≤ -(PIPE_WIDTH : ℚ) →
        ((UpdatePipes dt r g).pipeArray i).upperPipeRect.x = (screenWidth : ℚ) - g.pipeSpeed * dt
        ∧ ((UpdatePipes dt r g).pipeArray i).upperPipeRect.x < (screenWidth : ℚ)
        ∧ ((UpdatePipes dt r g).pipeArray i).lowerPipeRect.x
            = (screenWidth : ℚ) - g.pipeSpeed * dt) := by
  have hpos : 0 < g.pipeSpeed * dt := mul_pos hs hd
  rw [UpdatePipes_pipeArray, pipeAfter_x, pipeAfter_lower_x]
  constructor
  · intro h
    rw [if_neg h, if_neg h]
    exact ⟨rfl, by linarith, rfl, by linarith⟩
  · intro h
    rw [if_pos h, if_pos h]
    exact ⟨rfl, by linarith, rfl⟩

/-- Witness of C3: in `recycleFrameState`, `pipeArray[1]` is not recreated and moves left. -/
theorem C3_witness :
    0 < recycleFrameState.pipeSpeed ∧ (0 : ℚ) < 1 / 60
    ∧ ((UpdatePipes (1 / 60) (fun _ => (300, 200)) recycleFrameState).pipeArray 1).upperPipeRect.x
        < (recycleFrameState.pipeArray 1).upperPipeRect.x :=
  ⟨by norm_num [recycleFrameState], by norm_num,
    ((C3_UpdatePipes_moves_left (1 / 60) (fun _ => (300, 200)) recycleFrameState 1
      (by norm_num [recycleFrameState]) (by norm_num)).1
      (by norm_num [recycleFrameState, CreateRandomPipe, CreatePipe, PIPE_WIDTH])).2.1⟩

/-- C3 (counterexample to the claim as stated). With speed 200 and frame time 1/60, the pipe
recreated in the frame (it was at `x = -PIPE_WIDTH`) ends at `2390/3`, not at `screenWidth`:
it is moved in the frame that recreates it. -/
theorem C3_recycled_pipe_is_shifted :
    recycleFrameState.isGameRunning = true
    ∧ 0 < recycleFrameState.pipeSpeed ∧ (0 : ℚ) < 1 / 60
    ∧ (recycleFrameState.pipeArray 0).upperPipeRect.x ≤ -(PIPE_WIDTH : ℚ)
    ∧ ((UpdatePipes (1 / 60) (fun _ => (300, 200)) recycleFrameState).pipeArray 0).upperPipeRect.x
        = 2390 / 3
    ∧ ((UpdatePipes (1 / 60) (fun _ => (300, 200)) recycleFrameState).pipeArray 0).upperPipeRect.x
        ≠ (screenWidth : ℚ) := by
  refine ⟨rfl, ?_⟩
  rw [UpdatePipes_pipeArray, pipeAfter_x]
  norm_num [recycleFrameState, CreateRandomPipe, CreatePipe, PIPE_WIDTH, screenWidth]

/-- C4. One `UpdatePipes` step raises the score by the number of pipes whose flag was
false and that the bird had reached (`bird.x ≥ pipe.x + 5`, position before the shift); such a
pipe, unless recreated in the step, leaves the step flagged; a flagged pipe that is not
recreated stays flagged, so it is not counted by the next step; a pipe is unflagged again only
when the step recreates it with `CreateRandomPipe`. The same count and the same persistence of
the flag hold for a whole running frame `UpdateGame`, hence for every later frame until the
pipe is recreated. -/
theorem C4_UpdatePipes_score_once (dt : ℚ) (r : Fin PIPE_COUNT_IN_SCREEN → ℤ × ℤ) (g : Game) :
    (UpdatePipes dt r g).score
        = g.score + ((Finset.univ.filter (fun i : Fin PIPE_COUNT_IN_SCREEN =>
            (g.pipeArray i).hasBeenPassed = false
              ∧ g.bird.rectangle.x ≥ (g.pipeArray i).upperPipeRect.x + 5)).card : ℤ)
    ∧ (∀ i, (g.pipeArray i).hasBeenPassed = false
          → g.bird.rectangle.x ≥ (g.pipeArray i).upperPipeRect.x + 5
          → ¬ (g.pipeArray i).upperPipeRect.x ≤ -(PIPE_WIDTH : ℚ)
          → ((UpdatePipes dt r g).pipeArray i).hasBeenPassed = true)
    ∧ (∀ i, (g.pipeArray i).hasBeenPassed = true
          → ¬ (g.pipeArray i).upperPipeRect.x ≤ -(PIPE_WIDTH : ℚ)
          → ((UpdatePipes dt r g).pipeArray i).hasBeenPassed = true)
    ∧ (∀ i, (g.pipeArray i).upperPipeRect.x ≤ -(PIPE_WIDTH : ℚ)
          → (UpdatePipes dt r g).pipeArray i
              = MovePipe g.pipeSpeed dt (CreateRandomPipe (r i) screenWidth))
    ∧ (∀ (m : Libm) (inp : Input) (g' : Game),
          g.isGameRunning = true → UpdateGame m inp g = some g' →
          g'.score = g.score + ((Finset.univ.filter (fun i : Fin PIPE_COUNT_IN_SCREEN =>
              (g.pipeArray i).hasBeenPassed = false
                ∧ g.bird.rectangle.x ≥ (g.pipeArray i).upperPipeRect.x + 5)).card : ℤ)
          ∧ ∀ i, (g.pipeArray i).hasBeenPassed = true
              → ¬ (g.pipeArray i).upperPipeRect.x ≤ -(PIPE_WIDTH : ℚ)
              → (g'.pipeArray i).hasBeenPassed = true) := by
  have hscore : ∀ g : Game, (UpdatePipes dt r g).score
        = g.score + ((Finset.univ.filter (fun i : Fin PIPE_COUNT_IN_SCREEN =>
            (g.pipeArray i).hasBeenPassed = false
              ∧ g.bird.rectangle.x ≥ (g.pipeArray i).upperPipeRect.x + 5)).card : ℤ) := by
    intro g
    rw [UpdatePipes_score, Finset.card_filter, Fin.sum_univ_two]
    push_cast
    rw [add_assoc]
  have hkeep : ∀ (dt : ℚ) (r : Fin PIPE_COUNT_IN_SCREEN → ℤ × ℤ) (g : Game) i,
      (g.pipeArray i).hasBeenPassed = true
          → ¬ (g.pipeArray i).upperPipeRect.x ≤ -(PIPE_WIDTH : ℚ)
          → ((UpdatePipes dt r g).pipeArray i).hasBeenPassed = true := by
    intro dt r g i h1 h3
    rw [UpdatePipes_pipeArray, pipeAfter_hasBeenPassed, if_neg h3]
    simp [h1]
  refine ⟨hscore g, ?_, hkeep dt r g, ?_, ?_⟩
  · intro i h1 h2 h3
    rw [UpdatePipes_pipeArray, pipeAfter_hasBeenPassed, if_neg h3]
    simp [h2]
  · intro i h
    rw [UpdatePipes_pipeArray]
    unfold pipeAfter
    rw [if_pos h]
  · intro m inp g' hr hstep
    constructor
    · rw [UpdateGame_running_score m inp g g' hr hstep]
      unfold beforeCollisionCheck
      rw [UpdatePipes_score, Finset.card_filter, Fin.sum_univ_two]
      show _ = g.score + _
      simp only [UpdateBird_x]
      push_cast
      rw [add_assoc]
    · intro i h1 h3
      rw [UpdateGame_running_pipeArray m inp g g' hr hstep]
      unfold beforeCollisionCheck
      exact hkeep _ _ _ i h1 h3

/-- C5. For draws within the ranges of `GetRandomValue`, the pipe `CreateRandomPipe` returns has
a gap in `[3 * BIRD_HEIGHT, 5 * BIRD_HEIGHT] = [150, 250]`, an upper rectangle of height at
least 20, a lower rectangle that ends at `screenHeight`, and `hasBeenPassed = false`. -/
theorem C5_CreateRandomPipe_shape (x : ℤ) (rnd : ℤ × ℤ) (h : ValidDraw rnd) :
    ((3 * BIRD_HEIGHT : ℤ) : ℚ)
        ≤ (CreateRandomPipe rnd x).lowerPipeRect.y - (CreateRandomPipe rnd x).upperPipeRect.height
    ∧ (CreateRandomPipe rnd x).lowerPipeRect.y - (CreateRandomPipe rnd x).upperPipeRect.height
        ≤ ((5 * BIRD_HEIGHT : ℤ) : ℚ)
    ∧ 3 * BIRD_HEIGHT = 150 ∧ 5 * BIRD_HEIGHT = 250
    ∧ 20 ≤ (CreateRandomPipe rnd x).upperPipeRect.height
    ∧ (CreateRandomPipe rnd x).lowerPipeRect.y + (CreateRandomPipe rnd x).lowerPipeRect.height
        = (screenHeight : ℚ)
    ∧ (CreateRandomPipe rnd x).hasBeenPassed = false := by
  obtain ⟨⟨h1, h2⟩, h3, h4⟩ := h
  simp only [PIPE_GAP_MIN, PIPE_GAP_MAX, BIRD_HEIGHT, screenHeight] at h1 h2 h3 h4
  have e1 : (CreateRandomPipe rnd x).lowerPipeRect.y = ((rnd.1 + rnd.2 : ℤ) : ℚ) := rfl
  have e2 : (CreateRandomPipe rnd x).upperPipeRect.height = (rnd.1 : ℚ) := rfl
  have e3 : (CreateRandomPipe rnd x).lowerPipeRect.height = ((screenHeight - (rnd.1 + rnd.2) : ℤ) : ℚ) := rfl
  have q3 : ((150 : ℤ) : ℚ) ≤ rnd.2 := by exact_mod_cast h3
  have q4 : (rnd.2 : ℚ) ≤ ((250 : ℤ) : ℚ) := by exact_mod_cast h4
  have q1 : ((20 : ℤ) : ℚ) ≤ rnd.1 := by exact_mod_cast h1
  rw [e1, e2, e3]
  simp only [BIRD_HEIGHT, screenHeight]
  push_cast at q1 q3 q4 ⊢
  refine ⟨by linarith, by linarith, by norm_num, by norm_num, q1, by ring, rfl⟩

/-- Witness of C5 at the draws `(300, 200)`. -/
theorem C5_witness :
    ValidDraw (300, 200)
    ∧ 20 ≤ (CreateRandomPipe (300, 200) 800).upperPipeRect.height
    ∧ (CreateRandomPipe (300, 200) 800).lowerPipeRect.y
        + (CreateRandomPipe (300, 200) 800).lowerPipeRect.height = (screenHeight : ℚ)
    ∧ (CreateRandomPipe (300, 200) 800).hasBeenPassed = false :=
  ⟨by decide, (C5_CreateRandomPipe_shape 800 (300, 200) (by decide)).2.2.2.2⟩

/-- C6. In an ended session, a frame with the restart key pressed yields a running state with
score 0, speed `PIPE_SPEED_BASE = 200`, the bird at `x = 200`, `y = screenHeight / 2`, velocity 0,
rotation 0, every pipe `i` freshly created at `x = screenWidth + i * (pipeOffset + PIPE_WIDTH)`
(800 and 1250) with `hasBeenPassed = false`, and the high score unchanged. -/
theorem C6_restart_resets (m : Libm) (inp : Input) (g : Game)
    (hEnded : g.isGameRunning = false) (hKey : inp.keySpace = true) :
    ∃ g', UpdateGame m inp g = some g'
      ∧ g'.isGameRunning = true
      ∧ g'.score = 0
      ∧ g'.pipeSpeed = (PIPE_SPEED_BASE : ℚ) ∧ (PIPE_SPEED_BASE : ℚ) = 200
      ∧ g'.bird.rectangle.x = 200
      ∧ g'.bird.rectangle.y = ((Int.tdiv screenHeight 2 : ℤ) : ℚ)
      ∧ g'.bird.velocity = 0
      ∧ g'.bird.rotation = 0
      ∧ (∀ i : Fin PIPE_COUNT_IN_SCREEN,
          g'.pipeArray i
              = CreateRandomPipe (inp.random i) (screenWidth + (i : ℤ) * (pipeOffset + PIPE_WIDTH))
          ∧ (g'.pipeArray i).upperPipeRect.x
              = ((screenWidth + (i : ℤ) * (pipeOffset + PIPE_WIDTH) : ℤ) : ℚ)
          ∧ (g'.pipeArray i).lowerPipeRect.x
              = ((screenWidth + (i : ℤ) * (pipeOffset + PIPE_WIDTH) : ℤ) : ℚ)
          ∧ (g'.pipeArray i).hasBeenPassed = false)
      ∧ (g'.pipeArray 0).upperPipeRect.x = 800
      ∧ (g'.pipeArray 1).upperPipeRect.x = 1250
      ∧ g'.highScore = g.highScore := by
  refine ⟨ResetGame inp.random g, ?_, rfl, rfl, rfl, by norm_num [PIPE_SPEED_BASE], rfl, rfl,
    rfl, rfl, ?_, ?_, ?_, rfl⟩
  · unfold UpdateGame
    rw [if_neg (by rw [hEnded]; simp), if_pos hKey]
  · intro i
    have h : (ResetGame inp.random g).pipeArray i
        = CreateRandomPipe (inp.random i) (screenWidth + (i : ℤ) * (pipeOffset + PIPE_WIDTH)) :=
      InitializePipes_apply inp.random g.pipeArray i
    rw [h]
    exact ⟨rfl, rfl, rfl, rfl⟩
  · have h : (ResetGame inp.random g).pipeArray 0
        = CreateRandomPipe (inp.random 0)
            (screenWidth + ((0 : Fin PIPE_COUNT_IN_SCREEN) : ℤ) * (pipeOffset + PIPE_WIDTH)) :=
      InitializePipes_apply inp.random g.pipeArray 0
    rw [h]
    simp [CreateRandomPipe, CreatePipe, screenWidth]
  · have h : (ResetGame inp.random g).pipeArray 1
        = CreateRandomPipe (inp.random 1)
            (screenWidth + ((1 : Fin PIPE_COUNT_IN_SCREEN) : ℤ) * (pipeOffset + PIPE_WIDTH)) :=
      InitializePipes_apply inp.random g.pipeArray 1
    rw [h, pipeOffset_eq]
    simp [CreateRandomPipe, CreatePipe, screenWidth, PIPE_WIDTH]

/-- Witness of C6: restart after `recycleFrameState` has ended. -/
theorem C6_witness :
    (gameOver recycleFrameState).isGameRunning = false
    ∧ ∃ g', UpdateGame taylorLibm ⟨true, 1 / 60, fun _ => (300, 200)⟩ (gameOver recycleFrameState)
          = some g'
        ∧ g'.isGameRunning = true ∧ g'.score = 0 :=
  ⟨rfl,
    (C6_restart_resets taylorLibm ⟨true, 1 / 60, fun _ => (300, 200)⟩ (gameOver recycleFrameState)
      rfl rfl).imp (fun _ h => ⟨h.1, h.2.1, h.2.2.1⟩)⟩

/-- C7. The high score never decreases: not in one frame (any state, any input), hence not
along any sequence of frames; and from a state whose nearest index is within the array every
sequence of frames does produce a state. -/
theorem C7_highScore_never_decreases (m : Libm) :
    (∀ (inp : Input) (g g' : Game), UpdateGame m inp g = some g' → g.highScore ≤ g'.highScore)
    ∧ (∀ (inps : List Input) (g g' : Game),
        UpdateGameN m inps g = some g' → g.highScore ≤ g'.highScore)
    ∧ (∀ (inps : List Input) (g : Game),
        (0 ≤ g.nearestPipeIndex ∧ g.nearestPipeIndex < (PIPE_COUNT_IN_SCREEN : ℤ)) →
          ∃ g', UpdateGameN m inps g = some g' ∧ g.highScore ≤ g'.highScore) := by
  refine ⟨UpdateGame_highScore_le m, UpdateGameN_highScore_le m, ?_⟩
  intro inps g h
  obtain ⟨g', hg'⟩ := UpdateGameN_isSome m inps g h
  exact ⟨g', hg', UpdateGameN_highScore_le m inps g g' hg'⟩

/-- C8. In a running frame, let `beforeCollisionCheck inp g` be the state after `UpdateBird` and
`UpdatePipes`. If `CheckCollision` prints a collision message (ceiling, floor or pipe), the frame
ends with `isGameRunning = false`, the score of that state, and high score
`max score oldHighScore`; if it prints none, the running flag and the high score are unchanged.
`CheckCollision` does return when the nearest index is within the array. -/
theorem C8_collision_ends_session (m : Libm) (inp : Input) (g : Game)
    (hRunning : g.isGameRunning = true) :
    (∀ (gc : Game) (msg : Option Message),
        CheckCollision m (beforeCollisionCheck inp g) = some (gc, msg) →
        ∃ g', UpdateGame m inp g = some g'
          ∧ (msg ≠ none →
              g'.isGameRunning = false
              ∧ g'.score = (beforeCollisionCheck inp g).score
              ∧ g'.highScore = max (beforeCollisionCheck inp g).score g.highScore)
          ∧ (msg = none → g'.isGameRunning = true ∧ g'.highScore = g.highScore))
    ∧ ((0 ≤ g.nearestPipeIndex ∧ g.nearestPipeIndex < (PIPE_COUNT_IN_SCREEN : ℤ)) →
        ∃ gc msg, CheckCollision m (beforeCollisionCheck inp g) = some (gc, msg)) := by
  constructor
  · intro gc msg hc
    refine ⟨rampSpeed gc, ?_, ?_, ?_⟩
    · rw [UpdateGame_running m inp g hRunning, hc]
      rfl
    · intro hmsg
      rcases CheckCollision_cases m _ gc msg hc with h1 | h1
      · exact absurd h1.1 hmsg
      · rw [rampSpeed_isGameRunning, rampSpeed_score, rampSpeed_highScore, h1.2,
          gameOver_highScore, beforeCollisionCheck_highScore]
        exact ⟨rfl, rfl, rfl⟩
    · intro hmsg
      rcases CheckCollision_cases m _ gc msg hc with h1 | h1
      · rw [rampSpeed_isGameRunning, rampSpeed_highScore, h1.2,
          beforeCollisionCheck_isGameRunning, beforeCollisionCheck_highScore]
        exact ⟨hRunning, rfl⟩
      · exact absurd hmsg h1.1
  · intro h
    obtain ⟨res, hres⟩ := CheckCollision_isSome m _ (beforeCollisionCheck_nearest_bounds inp g h)
    exact ⟨res.1, res.2, hres⟩

/-- Witness of C8 on the running state `recycleFrameState`. -/
theorem C8_witness :
    recycleFrameState.isGameRunning = true
    ∧ ((0 ≤ recycleFrameState.nearestPipeIndex
          ∧ recycleFrameState.nearestPipeIndex < (PIPE_COUNT_IN_SCREEN : ℤ)) →
        ∃ gc msg, CheckCollision taylorLibm
          (beforeCollisionCheck ⟨false, 1 / 60, fun _ => (300, 200)⟩ recycleFrameState)
            = some (gc, msg)) :=
  ⟨rfl, (C8_collision_ends_session taylorLibm ⟨false, 1 / 60, fun _ => (300, 200)⟩
    recycleFrameState rfl).2⟩

/-- C9. `CheckCollision` reports a ceiling collision iff `bird.rotation < 0` and the top-right
corner, rotated about the centre of the bird by `bird.rotation`, has `y < 0` (the session then
ends); with `bird.rotation > 0` no ceiling collision is reported, whatever the corner's `y`. -/
theorem C9_ceiling_iff (m : Libm) (g : Game) :
    ((∃ g', CheckCollision m g = some (g', some Message.ceiling))
      ↔ (g.bird.rotation < 0
          ∧ (Vector2RotateRel m.cosf m.sinf
              ⟨g.bird.rectangle.x + g.bird.rectangle.width, g.bird.rectangle.y⟩
              ⟨g.bird.rectangle.x + g.bird.rectangle.width / 2,
                g.bird.rectangle.y + g.bird.rectangle.height / 2⟩
              (g.bird.rotation * m.DEG2RAD)).y < 0))
    ∧ (g.bird.rotation < 0
        → (Vector2RotateRel m.cosf m.sinf
              ⟨g.bird.rectangle.x + g.bird.rectangle.width, g.bird.rectangle.y⟩
              ⟨g.bird.rectangle.x + g.bird.rectangle.width / 2,
                g.bird.rectangle.y + g.bird.rectangle.height / 2⟩
              (g.bird.rotation * m.DEG2RAD)).y < 0
        → CheckCollision m g = some (gameOver g, some Message.ceiling))
    ∧ (0 < g.bird.rotation → ∀ g', CheckCollision m g ≠ some (g', some Message.ceiling)) := by
  have hcorner : (Vector2RotateRel m.cosf m.sinf
              ⟨g.bird.rectangle.x + g.bird.rectangle.width, g.bird.rectangle.y⟩
              ⟨g.bird.rectangle.x + g.bird.rectangle.width / 2,
                g.bird.rectangle.y + g.bird.rectangle.height / 2⟩
              (g.bird.rotation * m.DEG2RAD)) = rotatedTopRight m g.bird := rfl
  rw [hcorner]
  refine ⟨⟨?_, ?_⟩, ?_, ?_⟩
  · rintro ⟨g', h⟩
    rw [CheckCollision_eq] at h
    split_ifs at h with h1 h2 h3 h4
    · exact ⟨h1, h2⟩
    · exact absurd h (CheckCollisionPipes_ne_ceiling m g g')
    · simp at h
    · exact absurd h (CheckCollisionPipes_ne_ceiling m g g')
    · exact absurd h (CheckCollisionPipes_ne_ceiling m g g')
  · rintro ⟨h1, h2⟩
    exact ⟨gameOver g, by rw [CheckCollision_eq, if_pos h1, if_pos h2]⟩
  · intro h1 h2
    rw [CheckCollision_eq, if_pos h1, if_pos h2]
  · intro hpos g' h
    rw [CheckCollision_eq, if_neg (not_lt.mpr hpos.le), if_pos hpos] at h
    split_ifs at h
    · simp at h
    · exact absurd h (CheckCollisionPipes_ne_ceiling m g g')

/-- C10. One `UpdateBird` step without jump input on the freshly initialised bird, with
positive frame time: velocity `GRAVITY * dt`, `y = screenHeight / 2 + (GRAVITY * dt) * dt`,
rotation `+BIRD_JUMP_ROTATION = 15`. -/
theorem C10_first_frame_falls (dt : ℚ) (h : 0 < dt) :
    InitializeBird.rectangle.y = ((Int.tdiv screenHeight 2 : ℤ) : ℚ)
    ∧ InitializeBird.velocity = 0 ∧ InitializeBird.rotation = 0
    ∧ (UpdateBird false dt InitializeBird).velocity = (GRAVITY : ℚ) * dt
    ∧ (UpdateBird false dt InitializeBird).rectangle.y
        = ((Int.tdiv screenHeight 2 : ℤ) : ℚ) + ((GRAVITY : ℚ) * dt) * dt
    ∧ (UpdateBird false dt InitializeBird).rotation = (BIRD_JUMP_ROTATION : ℚ)
    ∧ (BIRD_JUMP_ROTATION : ℚ) = 15 := by
  have hv : (UpdateBird false dt InitializeBird).velocity = (GRAVITY : ℚ) * dt := by
    rw [UpdateBird_velocity]
    simp [InitializeBird]
  have hpos : (0 : ℚ) < (GRAVITY : ℚ) * dt := by
    have : (0 : ℚ) < (GRAVITY : ℚ) := by norm_num [GRAVITY]
    exact mul_pos this h
  refine ⟨rfl, rfl, rfl, hv, ?_, ?_, by norm_num [BIRD_JUMP_ROTATION]⟩
  · rw [UpdateBird_rectangle, hv]
    rfl
  · rw [UpdateBird_rotation, hv, if_neg (not_lt.mpr hpos.le), if_pos hpos]

/-- Witness of C10 at frame time 1/60. -/
theorem C10_witness :
    (0 : ℚ) < 1 / 60 ∧ (UpdateBird false (1 / 60) InitializeBird).velocity = (GRAVITY : ℚ) * (1 / 60) :=
  ⟨by norm_num, (C10_first_frame_falls (1 / 60) (by norm_num)).2.2.2.1⟩

/-- C11. One `UpdateBird` step with jump input gives velocity
`-BIRD_JUMP_SPEED + GRAVITY * dt = -500 + 1700 * dt`, whatever the bird was before, and moves
`y` by that new velocity times `dt`. -/
theorem C11_jump_overrides_velocity (dt : ℚ) (b : Bird) :
    (UpdateBird true dt b).velocity = -(BIRD_JUMP_SPEED : ℚ) + (GRAVITY : ℚ) * dt
    ∧ (UpdateBird true dt b).velocity = -500 + 1700 * dt
    ∧ (∀ b2 : Bird, (UpdateBird true dt b2).velocity = (UpdateBird true dt b).velocity)
    ∧ (UpdateBird true dt b).rectangle.y
        = b.rectangle.y + (-(BIRD_JUMP_SPEED : ℚ) + (GRAVITY : ℚ) * dt) * dt := by
  have hv : ∀ b : Bird,
      (UpdateBird true dt b).velocity = -(BIRD_JUMP_SPEED : ℚ) + (GRAVITY : ℚ) * dt := by
    intro b
    rw [UpdateBird_velocity, if_pos rfl]
  refine ⟨hv b, ?_, ?_, ?_⟩
  · rw [hv b]
    norm_num [BIRD_JUMP_SPEED, GRAVITY]
  · intro b2
    rw [hv b, hv b2]
  · rw [UpdateBird_rectangle, hv b]

/-- C12. When neither the ceiling rule nor the floor rule fires and the nearest pipe is
`p = pipeArray[nearestPipeIndex]`, `CheckCollision` ends the (running) session iff the rotated
top-right or bottom-right corner lies in the upper or lower rectangle of `p`
(`CheckCollisionPointRec`); and replacing the array by any array with the same pipe at the
nearest index gives the same result, the array apart. -/
theorem C12_pipe_collision_iff (m : Libm) (g : Game) (p : Pipe)
    (hp : pipeAt g.pipeArray g.nearestPipeIndex = some p)
    (hCeiling : ¬ (g.bird.rotation < 0 ∧ (rotatedTopRight m g.bird).y < 0))
    (hFloor : ¬ (g.bird.rotation > 0 ∧ (rotatedBottomRight m g.bird).y > (screenHeight : ℚ)))
    (hRunning : g.isGameRunning = true) :
    ((∃ gc msg, CheckCollision m g = some (gc, msg) ∧ gc.isGameRunning = false)
      ↔ (CheckCollisionPointRec (rotatedTopRight m g.bird) p.upperPipeRect = true
          ∨ CheckCollisionPointRec (rotatedTopRight m g.bird) p.lowerPipeRect = true
          ∨ CheckCollisionPointRec (rotatedBottomRight m g.bird) p.upperPipeRect = true
          ∨ CheckCollisionPointRec (rotatedBottomRight m g.bird) p.lowerPipeRect = true))
    ∧ (∃ gc msg, CheckCollision m g = some (gc, msg))
    ∧ (∀ a2 : Fin PIPE_COUNT_IN_SCREEN → Pipe,
        pipeAt a2 g.nearestPipeIndex = some p →
        CheckCollision m { g with pipeArray := a2 }
          = (CheckCollision m g).map
              (fun res => ({ res.1 with pipeArray := a2 }, res.2))) := by
  have hpipes : ∀ g : Game, pipeAt g.pipeArray g.nearestPipeIndex = some p →
      CheckCollisionPipes m g
        = some (if (CheckCollisionPointRec (rotatedTopRight m g.bird) p.upperPipeRect
              || CheckCollisionPointRec (rotatedBottomRight m g.bird) p.lowerPipeRect
              || CheckCollisionPointRec (rotatedTopRight m g.bird) p.lowerPipeRect
              || CheckCollisionPointRec (rotatedBottomRight m g.bird) p.upperPipeRect)
              = true then
            (gameOver g, some Message.pipe)
          else (g, none)) := by
    intro g hp
    rw [CheckCollisionPipes_eq, hp]
    rfl
  have hcc : CheckCollision m g = CheckCollisionPipes m g := by
    rw [CheckCollision_eq]
    split_ifs with h1 h2 h3 h4
    · exact absurd ⟨h1, h2⟩ hCeiling
    · rfl
    · exact absurd ⟨h3, h4⟩ hFloor
    · rfl
    · rfl
  refine ⟨?_, ?_, ?_⟩
  · rw [hcc, hpipes g hp]
    constructor
    · rintro ⟨gc, msg, h, hgc⟩
      split_ifs at h with hh
      · simp only [Bool.or_eq_true] at hh
        tauto
      · simp only [Option.some.injEq, Prod.mk.injEq] at h
        rw [← h.1, hRunning] at hgc
        exact absurd hgc (by simp)
    · intro hh
      refine ⟨gameOver g, some Message.pipe, ?_, rfl⟩
      rw [if_pos]
      simp only [Bool.or_eq_true]
      tauto
  · rw [hcc, hpipes g hp]
    exact ⟨_, _, rfl⟩
  · intro a2 hp2
    have hcc2 : CheckCollision m { g with pipeArray := a2 }
        = CheckCollisionPipes m { g with pipeArray := a2 } := by
      rw [CheckCollision_eq]
      show (if g.bird.rotation < 0 then
          if (rotatedTopRight m g.bird).y < 0 then _ else _
        else if g.bird.rotation > 0 then
          if (rotatedBottomRight m g.bird).y > (screenHeight : ℚ) then _ else _
        else _) = _
      split_ifs with h1 h2 h3 h4
      · exact absurd ⟨h1, h2⟩ hCeiling
      · rfl
      · exact absurd ⟨h3, h4⟩ hFloor
      · rfl
      · rfl
    rw [hcc2, hcc, hpipes g hp, hpipes { g with pipeArray := a2 } hp2]
    show some (if (CheckCollisionPointRec (rotatedTopRight m g.bird) p.upperPipeRect
              || CheckCollisionPointRec (rotatedBottomRight m g.bird) p.lowerPipeRect
              || CheckCollisionPointRec (rotatedTopRight m g.bird) p.lowerPipeRect
              || CheckCollisionPointRec (rotatedBottomRight m g.bird) p.upperPipeRect)
              = true then _ else _) = _
    split_ifs <;> rfl

/-- Witness of C12 on the initial state of the 18-frame run. -/
theorem C12_witness :
    pipeAt (restingState 200 800 1250 false false 0 0 0 true).pipeArray
        (restingState 200 800 1250 false false 0 0 0 true).nearestPipeIndex
      = some (pipeShape (300, 250) 800 false)
    ∧ ∃ gc msg, CheckCollision taylorLibm (restingState 200 800 1250 false false 0 0 0 true)
        = some (gc, msg) :=
  ⟨rfl,
    (C12_pipe_collision_iff taylorLibm (restingState 200 800 1250 false false 0 0 0 true)
      (pipeShape (300, 250) 800 false) rfl
      (fun h => absurd h.1 (lt_irrefl (0 : ℚ)))
      (fun h => absurd h.1 (lt_irrefl (0 : ℚ))) rfl).2.1⟩

/-- C13 (the code at the failing input). In a run of consecutive `DrawPauseScreen` calls from
counter 0, the prompt is drawn in call `n` (numbered from 0) iff `n % 91 < 45`: drawn in 45
calls, not drawn in the next 46, with period 91. Call 90, the first call of the second cycle
if the period were 90, draws nothing: it is the call that resets the counter. -/
theorem C13_blink_period_is_91 :
    (∀ n : ℕ, promptDrawn n = decide (n % 91 < 45))
    ∧ (∀ n : ℕ, promptDrawn (n + 91) = promptDrawn n)
    ∧ (∀ n : ℕ, n < 45 → promptDrawn n = true)
    ∧ (∀ n : ℕ, 45 ≤ n → n < 91 → promptDrawn n = false)
    ∧ promptDrawn 0 = true
    ∧ promptDrawn 90 = false
    ∧ promptDrawn 90 ≠ promptDrawn 0 := by
  have h0 : promptDrawn 0 = true := by rw [promptDrawn_eq]; decide
  have h90 : promptDrawn 90 = false := by rw [promptDrawn_eq]; decide
  refine ⟨promptDrawn_eq, ?_, ?_, ?_, h0, h90, ?_⟩
  · intro n
    rw [promptDrawn_eq, promptDrawn_eq, Nat.add_mod_right]
  · intro n hn
    rw [promptDrawn_eq, Nat.mod_eq_of_lt (by omega)]
    exact decide_eq_true hn
  · intro n h1 h2
    rw [promptDrawn_eq, Nat.mod_eq_of_lt h2]
    exact decide_eq_false (by omega)
  · rw [h0, h90]
    decide

/-- C14. In an ended session a frame without the restart key returns the state unchanged,
whatever the frame time and the draws are. -/
theorem C14_ended_frame_is_idle (m : Libm) (inp : Input) (g : Game)
    (hEnded : g.isGameRunning = false) (hKey : inp.keySpace = false) :
    UpdateGame m inp g = some g := by
  unfold UpdateGame
  rw [if_neg (by rw [hEnded]; simp), if_neg (by rw [hKey]; simp)]

/-- Witness of C14 on the ended state `gameOver recycleFrameState`. -/
theorem C14_witness :
    (gameOver recycleFrameState).isGameRunning = false
    ∧ UpdateGame taylorLibm ⟨false, 1 / 60, fun _ => (300, 200)⟩ (gameOver recycleFrameState)
        = some (gameOver recycleFrameState) :=
  ⟨rfl, C14_ended_frame_is_idle taylorLibm ⟨false, 1 / 60, fun _ => (300, 200)⟩
    (gameOver recycleFrameState) rfl rfl⟩

/-- C15. After an `UpdateBird` step the rotation is `-15`, `+15` or `0` as the new velocity
is negative, positive or zero; hence the rotation is one of these three in every reachable
state; and `UpdateBird` changes neither `x` nor the width nor the height of the bird. -/
theorem C15_rotation_follows_velocity (m : Libm) :
    (∀ (k : Bool) (dt : ℚ) (b : Bird),
      (UpdateBird k dt b).rotation
        = if (UpdateBird k dt b).velocity < 0 then -(BIRD_JUMP_ROTATION : ℚ)
          else if (UpdateBird k dt b).velocity > 0 then (BIRD_JUMP_ROTATION : ℚ) else 0)
    ∧ (BIRD_JUMP_ROTATION : ℚ) = 15
    ∧ (∀ g : Game, Reachable m g →
        g.bird.rotation = -15 ∨ g.bird.rotation = 0 ∨ g.bird.rotation = 15)
    ∧ (∀ (k : Bool) (dt : ℚ) (b : Bird),
        (UpdateBird k dt b).rectangle.x = b.rectangle.x
        ∧ (UpdateBird k dt b).rectangle.width = b.rectangle.width
        ∧ (UpdateBird k dt b).rectangle.height = b.rectangle.height) := by
  have h15 : (BIRD_JUMP_ROTATION : ℚ) = 15 := by norm_num [BIRD_JUMP_ROTATION]
  refine ⟨UpdateBird_rotation, h15, ?_, ?_⟩
  · intro g hg
    have h := Reachable_rotation m g hg
    rw [h15] at h
    exact h
  · intro k dt b
    rw [UpdateBird_rectangle]
    exact ⟨rfl, rfl, rfl⟩

/-- C16 (amended). In every reachable state every pipe has its shape: both rectangles at the
same `x` and of width `PIPE_WIDTH`, the upper one from `y = 0`, the lower one down to
`screenHeight`, the gap within `[PIPE_GAP_MIN, PIPE_GAP_MAX]`. Of a pipe it does not recreate,
`UpdatePipes` changes the `x` of the two rectangles (both by `-pipeSpeed * dt`) and the flag
`hasBeenPassed`, which it sets when the bird has reached the pipe (`bird.x ≥ pipe.x + 5`);
`y`, width and height of both rectangles and the colour stay. -/
theorem C16_pipes_keep_shape (m : Libm) (g : Game) (h : Reachable m g) :
    (∀ i, (g.pipeArray i).upperPipeRect.x = (g.pipeArray i).lowerPipeRect.x
        ∧ (g.pipeArray i).upperPipeRect.width = (PIPE_WIDTH : ℚ)
        ∧ (g.pipeArray i).lowerPipeRect.width = (PIPE_WIDTH : ℚ)
        ∧ (g.pipeArray i).upperPipeRect.y = 0
        ∧ (g.pipeArray i).lowerPipeRect.y + (g.pipeArray i).lowerPipeRect.height
            = (screenHeight : ℚ)
        ∧ (PIPE_GAP_MIN : ℚ)
            ≤ (g.pipeArray i).lowerPipeRect.y - (g.pipeArray i).upperPipeRect.height
        ∧ (g.pipeArray i).lowerPipeRect.y - (g.pipeArray i).upperPipeRect.height
            ≤ (PIPE_GAP_MAX : ℚ))
    ∧ (∀ (dt : ℚ) (r : Fin PIPE_COUNT_IN_SCREEN → ℤ × ℤ) (i : Fin PIPE_COUNT_IN_SCREEN),
        ¬ (g.pipeArray i).upperPipeRect.x ≤ -(PIPE_WIDTH : ℚ) →
        ((UpdatePipes dt r g).pipeArray i).upperPipeRect
            = { (g.pipeArray i).upperPipeRect with
                x := (g.pipeArray i).upperPipeRect.x - g.pipeSpeed * dt }
        ∧ ((UpdatePipes dt r g).pipeArray i).lowerPipeRect
            = { (g.pipeArray i).lowerPipeRect with
                x := (g.pipeArray i).lowerPipeRect.x - g.pipeSpeed * dt }
        ∧ ((UpdatePipes dt r g).pipeArray i).color = (g.pipeArray i).color
        ∧ ((UpdatePipes dt r g).pipeArray i).hasBeenPassed
            = ((g.pipeArray i).hasBeenPassed
                || decide (g.bird.rectangle.x ≥ (g.pipeArray i).upperPipeRect.x + 5))) := by
  refine ⟨Reachable_shapeOK m g h, ?_⟩
  intro dt r i hi
  rw [UpdatePipes_pipeArray, pipeAfter_not_recycled _ _ _ _ _ hi]
  exact ⟨rfl, rfl, rfl, rfl⟩

/-- Witness of C16 on the initial state. -/
theorem C16_witness :
    Reachable taylorLibm (InitGame startDraws startArray)
    ∧ ∀ i, ((InitGame startDraws startArray).pipeArray i).upperPipeRect.x
        = ((InitGame startDraws startArray).pipeArray i).lowerPipeRect.x :=
  ⟨Reachable.init startDraws startArray validDraw_startDraws,
    fun i => ((C16_pipes_keep_shape taylorLibm (InitGame startDraws startArray)
      (Reachable.init startDraws startArray validDraw_startDraws)).1 i).1⟩

/-- C16 (counterexample to the claim as stated). In the reachable state after 11 frames with
SPACE pressed and frame time 5/17, pipe 0 stands at `x = 10367/68` with `hasBeenPassed = false`.
The next `UpdatePipes` does not recreate it (`x > -PIPE_WIDTH`), moves it, and also sets its
flag, since `bird.x = 200 ≥ x + 5`: more than the `x` of the pipe has changed. -/
theorem C16_flag_is_set_too :
    Reachable taylorLibm
      (restingState (20033 / 100) (10367 / 68) (40967 / 68) false false 0 0 0 true)
    ∧ ¬ ((restingState (20033 / 100) (10367 / 68) (40967 / 68) false false 0 0 0 true).pipeArray
          0).upperPipeRect.x ≤ -(PIPE_WIDTH : ℚ)
    ∧ ((restingState (20033 / 100) (10367 / 68) (40967 / 68) false false 0 0 0 true).pipeArray
          0).hasBeenPassed = false
    ∧ ((UpdatePipes (5 / 17) startDraws
          (restingState (20033 / 100) (10367 / 68) (40967 / 68) false false 0 0 0 true)).pipeArray
          0).hasBeenPassed = true
    ∧ ((UpdatePipes (5 / 17) startDraws
          (restingState (20033 / 100) (10367 / 68) (40967 / 68) false false 0 0 0 true)).pipeArray
          0).hasBeenPassed
        ≠ ((restingState (20033 / 100) (10367 / 68) (40967 / 68) false false 0 0 0 true).pipeArray
          0).hasBeenPassed := by
  have hx : ((restingState (20033 / 100) (10367 / 68) (40967 / 68) false false 0 0 0
      true).pipeArray 0).upperPipeRect.x = 10367 / 68 := rfl
  have hf : ((restingState (20033 / 100) (10367 / 68) (40967 / 68) false false 0 0 0
      true).pipeArray 0).hasBeenPassed = false := rfl
  have hb : (restingState (20033 / 100) (10367 / 68) (40967 / 68) false false 0 0 0
      true).bird.rectangle.x = 200 := rfl
  have hW : (PIPE_WIDTH : ℚ) = 100 := by norm_num [PIPE_WIDTH]
  have hnot : ¬ ((10367 : ℚ) / 68 ≤ -100) := by norm_num
  have hafter : ((UpdatePipes (5 / 17) startDraws
      (restingState (20033 / 100) (10367 / 68) (40967 / 68) false false 0 0 0 true)).pipeArray
        0).hasBeenPassed = true := by
    rw [UpdatePipes_pipeArray, pipeAfter_hasBeenPassed, hx, hf, hb, hW, if_neg hnot]
    norm_num
  refine ⟨Reachable_pressTrace_11, ?_, hf, hafter, ?_⟩
  · rw [hx, hW]
    exact hnot
  · rw [hafter, hf]
    decide

/-- C17. Over the reals, with the real cosine and sine, `Vector2RotateRel` maps its origin to
itself and preserves the distance between two points. -/
theorem C17_rotation_is_rigid (p q o : Vector2 ℝ) (a : ℝ) :
    Vector2RotateRel Real.cos Real.sin o o a = o
    ∧ Real.sqrt
        (((Vector2RotateRel Real.cos Real.sin p o a).x
            - (Vector2RotateRel Real.cos Real.sin q o a).x) ^ 2
          + ((Vector2RotateRel Real.cos Real.sin p o a).y
            - (Vector2RotateRel Real.cos Real.sin q o a).y) ^ 2)
      = Real.sqrt ((p.x - q.x) ^ 2 + (p.y - q.y) ^ 2) := by
  constructor
  · cases o
    simp [Vector2RotateRel, Vector2Rotate, Vector2Subtract, Vector2Add]
  · congr 1
    simp only [Vector2RotateRel, Vector2Rotate, Vector2Subtract, Vector2Add]
    have h := Real.sin_sq_add_cos_sq a
    have e : ((p.x - o.x) * Real.cos a - (p.y - o.y) * Real.sin a + o.x
          - ((q.x - o.x) * Real.cos a - (q.y - o.y) * Real.sin a + o.x)) ^ 2
        + ((p.x - o.x) * Real.sin a + (p.y - o.y) * Real.cos a + o.y
          - ((q.x - o.x) * Real.sin a + (q.y - o.y) * Real.cos a + o.y)) ^ 2
        = ((p.x - q.x) ^ 2 + (p.y - q.y) ^ 2) * (Real.sin a ^ 2 + Real.cos a ^ 2) := by
      ring
    rw [e, h, mul_one]

/-- C18. With a math library as in `TiltSound`, in every reachable state that is running
(frames of any frame time `≥ 0`, so in particular of positive frame time) the corners
`CheckCollision` tests are vertically on screen: the rotated top-right corner has `y ≥ 0` and
the rotated bottom-right corner has `y ≤ screenHeight`. -/
theorem C18_bird_stays_on_screen (m : Libm) (hm : TiltSound m) (g : Game)
    (hg : Reachable m g) (hRunning : g.isGameRunning = true) :
    0 ≤ (rotatedTopRight m g.bird).y
    ∧ (rotatedBottomRight m g.bird).y ≤ (screenHeight : ℚ)
    ∧ (rotatedTopRight m g.bird).y
        = (Vector2RotateRel m.cosf m.sinf
            ⟨g.bird.rectangle.x + g.bird.rectangle.width, g.bird.rectangle.y⟩
            ⟨g.bird.rectangle.x + g.bird.rectangle.width / 2,
              g.bird.rectangle.y + g.bird.rectangle.height / 2⟩
            (g.bird.rotation * m.DEG2RAD)).y
    ∧ (rotatedBottomRight m g.bird).y
        = (Vector2RotateRel m.cosf m.sinf
            ⟨g.bird.rectangle.x + g.bird.rectangle.width,
              g.bird.rectangle.y + g.bird.rectangle.height⟩
            ⟨g.bird.rectangle.x + g.bird.rectangle.width / 2,
              g.bird.rectangle.y + g.bird.rectangle.height / 2⟩
            (g.bird.rotation * m.DEG2RAD)).y := by
  obtain ⟨hw, hh, hy⟩ := Reachable_bird_bounds m hm g hg
  obtain ⟨hL, hU⟩ := hy hRunning
  have hrot := Reachable_rotation m g hg
  obtain ⟨hc0, hs0, hce, hso, hs1, hs2, hc1, hc2⟩ := hm
  have hS : (screenHeight : ℚ) = 800 := by norm_num [screenHeight]
  refine ⟨?_, ?_, rfl, rfl⟩
  · rw [rotatedTopRight_y, hw, hh]
    rcases hrot with hr | hr | hr
    · rw [hr, hce, hso]
      linarith
    · rw [hr, hc0, hs0]
      linarith
    · rw [hr]
      linarith
  · rw [rotatedBottomRight_y, hw, hh, hS]
    rcases hrot with hr | hr | hr
    · rw [hr, hce, hso]
      linarith
    · rw [hr, hc0, hs0]
      linarith
    · rw [hr]
      linarith

/-- Witness of C18 on the initial state, with `taylorLibm`. -/
theorem C18_witness :
    TiltSound taylorLibm
    ∧ Reachable taylorLibm (InitGame startDraws startArray)
    ∧ (InitGame startDraws startArray).isGameRunning = true
    ∧ 0 ≤ (rotatedTopRight taylorLibm (InitGame startDraws startArray).bird).y
    ∧ (rotatedBottomRight taylorLibm (InitGame startDraws startArray).bird).y
        ≤ (screenHeight : ℚ) :=
  ⟨tiltSound_taylorLibm, Reachable.init startDraws startArray validDraw_startDraws, rfl,
    (C18_bird_stays_on_screen taylorLibm tiltSound_taylorLibm (InitGame startDraws startArray)
      (Reachable.init startDraws startArray validDraw_startDraws) rfl).1,
    (C18_bird_stays_on_screen taylorLibm tiltSound_taylorLibm (InitGame startDraws startArray)
      (Reachable.init startDraws startArray validDraw_startDraws) rfl).2.1⟩

/-- C19. In every reachable state `0 ≤ nearestPipeIndex < PIPE_COUNT_IN_SCREEN`, so
`pipeArray[nearestPipeIndex]` is a read within the array: `CheckCollision` and the next frame
return. -/
theorem C19_nearest_index_in_bounds (m : Libm) (g : Game) (h : Reachable m g) :
    (0 ≤ g.nearestPipeIndex ∧ g.nearestPipeIndex < (PIPE_COUNT_IN_SCREEN : ℤ))
    ∧ (∃ p, pipeAt g.pipeArray g.nearestPipeIndex = some p)
    ∧ (∃ res, CheckCollision m g = some res)
    ∧ (∀ inp : Input, ∃ g', UpdateGame m inp g = some g') := by
  have hb := Reachable_nearest_bounds m g h
  exact ⟨hb, pipeAt_isSome _ _ hb, CheckCollision_isSome m g hb,
    fun inp => UpdateGame_isSome m inp g hb⟩

/-- Witness of C19 on the initial state. -/
theorem C19_witness :
    Reachable taylorLibm (InitGame startDraws startArray)
    ∧ (0 ≤ (InitGame startDraws startArray).nearestPipeIndex
        ∧ (InitGame startDraws startArray).nearestPipeIndex < (PIPE_COUNT_IN_SCREEN : ℤ)) :=
  ⟨Reachable.init startDraws startArray validDraw_startDraws,
    (C19_nearest_index_in_bounds taylorLibm (InitGame startDraws startArray)
      (Reachable.init startDraws startArray validDraw_startDraws)).1⟩

/-- C20. In every reachable state the score is non-negative, in every reachable ended state
`highScore ≥ score`, and a running frame never decreases the score. -/
theorem C20_score_invariants (m : Libm) (g : Game) (h : Reachable m g) :
    (g.isGameRunning = false → g.score ≤ g.highScore)
    ∧ 0 ≤ g.score
    ∧ (∀ (inp : Input) (g' : Game),
        g.isGameRunning = true → UpdateGame m inp g = some g' → g.score ≤ g'.score) := by
  refine ⟨(Reachable_score m g h).2, (Reachable_score m g h).1, ?_⟩
  intro inp g' hr hstep
  rw [UpdateGame_running_score m inp g g' hr hstep]
  exact beforeCollisionCheck_score_ge inp g

/-- Witness of C20 on the state right after the restart of the 18-frame run. -/
theorem C20_witness :
    Reachable taylorLibm (restingState 200 800 1250 false false 1 0 1 true)
    ∧ 0 ≤ (restingState 200 800 1250 false false 1 0 1 true).score :=
  ⟨Reachable_UpdateGameN taylorLibm _ _ _
      (Reachable.init startDraws startArray validDraw_startDraws)
      (fun inp hinp => by rw [List.eq_of_mem_replicate hinp]; exact validInput_pressFrame)
      pressTrace,
    (C20_score_invariants taylorLibm _
      (Reachable_UpdateGameN taylorLibm _ _ _
        (Reachable.init startDraws startArray validDraw_startDraws)
        (fun inp hinp => by rw [List.eq_of_mem_replicate hinp]; exact validInput_pressFrame)
        pressTrace)).2.1⟩

end FlappyRectangle
